import Mathlib

set_option maxRecDepth 16384

/-!
Verification development for the DasherHelp email-driven account state
engine (`src/backend/app`).  The Python services are shallowly embedded:

* strings are Lean `String`s (lists of characters); Python's `str.lower`
  is embedded as ASCII lowercasing (`Char.toLower`), `str.strip` as
  `pyStrip`; the inputs of interest are ASCII;
* the compiled `re` patterns are embedded by a small backtracking
  matcher over a token alphabet (`Tok`): literal alternatives, character
  classes with greedy counted repetition, word boundaries and `.*` gaps;
  each Python pattern is transcribed token by token, with a group such
  as `(x)?` or an inner alternation flattened into the list of
  alternative token sequences in the engine's preference order;
* numbers that the code handles as floats (confidences) are embedded as
  rationals (`ℚ`); every confidence the code manipulates is an exact
  decimal literal, so no float rounding is observable in the claims;
* I/O (database reads/writes, HTTP, the LLM call) is passed in as
  explicit inputs or returned as explicit outputs: the DB row a function
  persists is its return value, the LLM outcome is an `Option` input.
-/

namespace Dasher

/-! ## Character helpers (ASCII fragment of Python's `str` methods) -/

/-- Python whitespace (`str.strip` default set, ASCII fragment). -/
def isSpc (c : Char) : Bool :=
  c.toNat == 32 || c.toNat == 9 || c.toNat == 10 || c.toNat == 13 ||
  c.toNat == 11 || c.toNat == 12

/-- `\d` (ASCII). -/
def isDigitCh (c : Char) : Bool := 48 ≤ c.toNat && c.toNat ≤ 57

/-- `[A-Z]`. -/
def isUpperAZ (c : Char) : Bool := 65 ≤ c.toNat && c.toNat ≤ 90

/-- `[a-z]`. -/
def isLowerAZ (c : Char) : Bool := 97 ≤ c.toNat && c.toNat ≤ 122

/-- `\w` (ASCII fragment): letters, digits, underscore. -/
def isWordChar (c : Char) : Bool :=
  isUpperAZ c || isLowerAZ c || isDigitCh c || c.toNat == 95

/-- `str.strip()`: drop whitespace from both ends. -/
def pyStrip (l : List Char) : List Char :=
  ((l.dropWhile isSpc).reverse.dropWhile isSpc).reverse

/-- `str.lower()` on the ASCII fragment, as a list map. -/
def pyLowerList (l : List Char) : List Char := l.map Char.toLower

/-- `(s or "").lower().strip()` — the `_lower` helper shared by
`stage_detector.py` and `email_classifier.py`. -/
def _lower (s : String) : String := String.mk (pyStrip (pyLowerList s.data))

/-- `subject[:n]`-style slicing. -/
def pyTake (n : Nat) (s : String) : String := String.mk (s.data.take n)

/-- `s.endswith(suffix)`. -/
def pyEndsWith (s suffix : String) : Bool := suffix.data.isSuffixOf s.data

/-! ## A small regex engine

The compiled patterns of the services use only: literals (with or
without `re.IGNORECASE`), alternation, `\s+`/`\s*`, counted character
classes (counted digit runs, letter ranges, the amount class), word boundaries
`\b` and `.*` gaps.  A pattern is flattened to a list of alternative
token sequences (`RePat`), tried in the engine's order; repetition is
greedy, and `matchSeq` enumerates the continuations of a sequence in
backtracking preference order, so the first continuation is the match
Python's engine would pick. -/

inductive Tok where
  /-- one of several literal strings, tried in order; `ci` = ignore case -/
  | lits (ci : Bool) (ss : List (List Char))
  /-- greedy counted repetition of a character class: at least `lo`, at
  most `hi` (`none` = unbounded) -/
  | cls (p : Char → Bool) (lo : Nat) (hi : Option Nat)
  /-- word boundary `\b` -/
  | bnd
  /-- `.*` -/
  | gap

/-- Compare one input character against one pattern character. -/
def charEq (ci : Bool) (pat input : Char) : Bool :=
  if ci then pat.toLower == input.toLower else pat == input

/-- Match a literal at the front of the input; returns the last consumed
character (for later `\b` checks) and the rest. -/
def matchLit (ci : Bool) : List Char → Option Char → List Char →
    Option (Option Char × List Char)
  | [], prev, cs => some (prev, cs)
  | p :: ps, _prev, cs =>
    match cs with
    | [] => none
    | c :: rest => if charEq ci p c then matchLit ci ps (some c) rest else none

/-- Consume `n` characters of the input. -/
def consumeN (prev : Option Char) (cs : List Char) (n : Nat) :
    Option Char × List Char :=
  match (cs.take n).getLast? with
  | some c => (some c, cs.drop n)
  | none => (prev, cs)

/-- All continuations of one token, in preference order. -/
def tokConts : Tok → Option Char → List Char → List (Option Char × List Char)
  | .lits ci ss, prev, cs => ss.filterMap (fun l => matchLit ci l prev cs)
  | .cls p lo hi, prev, cs =>
    let m0 := (cs.takeWhile p).length
    let m := match hi with
      | none => m0
      | some h => min h m0
    (List.range (m + 1)).filterMap (fun k =>
      if lo ≤ m - k then some (consumeN prev cs (m - k)) else none)
  | .bnd, prev, cs =>
    let pv := match prev with
      | some c => isWordChar c
      | none => false
    let nx := match cs with
      | c :: _ => isWordChar c
      | [] => false
    if pv != nx then [(prev, cs)] else []
  | .gap, prev, cs =>
    (List.range (cs.length + 1)).map (fun k => consumeN prev cs (cs.length - k))

/-- All continuations of a token sequence, in backtracking order. -/
def matchSeq : List Tok → Option Char → List Char → List (Option Char × List Char)
  | [], prev, cs => [(prev, cs)]
  | t :: ts, prev, cs => (tokConts t prev cs).flatMap (fun pr => matchSeq ts pr.1 pr.2)

/-- A pattern: alternative token sequences in preference order. -/
abbrev RePat := List (List Tok)

/-- Does the pattern match starting at this position? -/
def matchesHere (pat : RePat) (prev : Option Char) (cs : List Char) : Bool :=
  pat.any (fun ts => !(matchSeq ts prev cs).isEmpty)

/-- `re.search`: does the pattern match at some position?  `prev` is the
character just before the current position (for `\b`). -/
def searchFrom (pat : RePat) : Option Char → List Char → Bool
  | prev, [] => matchesHere pat prev []
  | prev, c :: rest =>
    if matchesHere pat prev (c :: rest) then true
    else searchFrom pat (some c) rest

/-- `pattern.search(s) is not None`. -/
def reSearch (pat : RePat) (s : String) : Bool := searchFrom pat none s.data

/-- The engine-preferred match at this position, if any. -/
def firstMatchAt (pat : RePat) (prev : Option Char) (cs : List Char) :
    Option (Option Char × List Char) :=
  (pat.flatMap (fun ts => matchSeq ts prev cs)).head?

/-- `re.sub` worker: scan left to right, replace each leftmost
non-overlapping match and continue after it; the boundary context always
comes from the original string.  A zero-width match is treated as no
match (none of the embedded patterns can match the empty string).
`fuel` starts at the input length; each step consumes at least one
character. -/
def reSubAux (pat : RePat) (repl : List Char) :
    Nat → Option Char → List Char → List Char
  | 0, _, cs => cs
  | _ + 1, _, [] => []
  | fuel + 1, prev, c :: rest =>
    match firstMatchAt pat prev (c :: rest) with
    | some (p2, rem) =>
      if rem.length < rest.length + 1 then
        repl ++ reSubAux pat repl fuel p2 rem
      else c :: reSubAux pat repl fuel (some c) rest
    | none => c :: reSubAux pat repl fuel (some c) rest

/-- `pattern.sub(repl, s)`. -/
def reSub (pat : RePat) (repl : String) (s : String) : String :=
  String.mk (reSubAux pat repl.data s.data.length none s.data)

/-! Pattern-building shorthands. -/

/-- Case-insensitive literal token. -/
def lit (s : String) : Tok := .lits true [s.data]

/-- Case-sensitive literal token. -/
def litCS (s : String) : Tok := .lits false [s.data]

/-- `\s+`. -/
def wsp : Tok := .cls isSpc 1 none

/-- `\d` repeated between `lo` and `hi` times. -/
def digits (lo : Nat) (hi : Option Nat) : Tok := .cls isDigitCh lo hi

end Dasher

namespace Dasher

/-! ## `services/template_fingerprint.py`

Subject normalisation patterns, SHA-256 fingerprinting and the
scan-scoped template cache.  The cache's hit/miss counters are omitted:
no claim concerns the statistics, only the mapping. -/

/-- `\$[\d,.]+` → `$X`. -/
def _AMOUNT_RE : RePat :=
  [[litCS "$", .cls (fun c => isDigitCh c || c == ',' || c == '.') 1 none]]

def monthsFull : List (List Char) :=
  ["january".data, "february".data, "march".data, "april".data, "may".data,
   "june".data, "july".data, "august".data, "september".data, "october".data,
   "november".data, "december".data]

def monthsAbbr : List (List Char) :=
  ["jan".data, "feb".data, "mar".data, "apr".data, "may".data, "jun".data,
   "jul".data, "aug".data, "sep".data, "oct".data, "nov".data, "dec".data]

/-- The class of a slash or a hyphen. -/
def slashDash (c : Char) : Bool := c == '/' || c == '-'

/-- `\b(?:January|…)\s+\d` then one or two digits, then an optional
`,?\s+` and four digits, then `\b` (IGNORECASE); the optional group's
variants are flattened greedily. -/
def _DATE_MONTH_FULL_RE : RePat :=
  [[.bnd, .lits true monthsFull, wsp, digits 1 (some 2), litCS ",", wsp,
    digits 4 (some 4), .bnd],
   [.bnd, .lits true monthsFull, wsp, digits 1 (some 2), wsp,
    digits 4 (some 4), .bnd],
   [.bnd, .lits true monthsFull, wsp, digits 1 (some 2), .bnd]]

/-- `\b(?:Jan|…)\s+\d` then one or two digits and `\b` (IGNORECASE). -/
def _DATE_MON_DAY_RE : RePat :=
  [[.bnd, .lits true monthsAbbr, wsp, digits 1 (some 2), .bnd]]

/-- ISO date: `\b` four digits `-` two digits `-` two digits `\b`. -/
def _DATE_ISO_RE : RePat :=
  [[.bnd, digits 4 (some 4), litCS "-", digits 2 (some 2), litCS "-",
    digits 2 (some 2), .bnd]]

/-- `\b` one or two digits, a slash or hyphen, one or two digits,
optionally another slash or hyphen and two to four digits, `\b`. -/
def _DATE_SLASH_RE : RePat :=
  [[.bnd, digits 1 (some 2), .cls slashDash 1 (some 1), digits 1 (some 2),
    .cls slashDash 1 (some 1), digits 2 (some 4), .bnd],
   [.bnd, digits 1 (some 2), .cls slashDash 1 (some 1), digits 1 (some 2),
    .bnd]]

/-- `\b(19|20)` then two digits and `\b`. -/
def _YEAR_RE : RePat :=
  [[.bnd, .lits false ["19".data, "20".data], digits 2 (some 2), .bnd]]

/-- `\b(Hi|Hello|Hey|Dear)\s+[A-Z][a-z]` with at least two more
lowercase letters — case-SENSITIVE, exactly as compiled in the source. -/
def _NAME_RE : RePat :=
  [[.bnd, .lits false ["Hi".data, "Hello".data, "Hey".data, "Dear".data],
    wsp, .cls isUpperAZ 1 (some 1), .cls isLowerAZ 2 none]]

/-- `\b\d` with at least four digits and `\b`. -/
def _NUM_RE : RePat := [[.bnd, digits 4 none, .bnd]]

/-- `normalize_subject`: strip + lowercase, then the substitution chain. -/
def normalizeSubsChain (s : String) : String :=
  let s := reSub _AMOUNT_RE "$X" s
  let s := reSub _DATE_MONTH_FULL_RE "DATE" s
  let s := reSub _DATE_MON_DAY_RE "DATE" s
  let s := reSub _DATE_ISO_RE "DATE" s
  let s := reSub _DATE_SLASH_RE "DATE" s
  let s := reSub _YEAR_RE "YEAR" s
  let s := reSub _NAME_RE "GREETING" s
  let s := reSub _NUM_RE "NUM" s
  s

/-- `subject.strip().lower()` followed by the substitutions. -/
def normalize_subject (subject : String) : String :=
  normalizeSubsChain (String.mk (pyLowerList (pyStrip subject.data)))

/-- `s.split(sep)[-1]`: the part after the last occurrence of `sep`. -/
def afterLastChar (sep : Char) (l : List Char) : List Char :=
  (l.reverse.takeWhile (fun c => !(c == sep))).reverse

/-- `s.rstrip(c)`. -/
def rstripChar (c : Char) (l : List Char) : List Char :=
  (l.reverse.dropWhile (fun x => x == c)).reverse

/-- `sender_domain`: strip a display name with angle brackets, take the
part after `@`, lowercase. -/
def sender_domain (sender : String) : String :=
  let s := sender.data
  let s := if s.contains '<' then rstripChar '>' (afterLastChar '<' s) else s
  if s.contains '@' then String.mk (pyLowerList (afterLastChar '@' s))
  else String.mk (pyLowerList s)

/-! SHA-256 (for `hashlib.sha256(raw.encode()).hexdigest()`). -/

/-- UTF-8 bytes of one character. -/
def utf8Bytes (c : Char) : List Nat :=
  let n := c.toNat
  if n < 128 then [n]
  else if n < 2048 then [192 ||| (n >>> 6), 128 ||| (n &&& 63)]
  else if n < 65536 then
    [224 ||| (n >>> 12), 128 ||| ((n >>> 6) &&& 63), 128 ||| (n &&& 63)]
  else
    [240 ||| (n >>> 18), 128 ||| ((n >>> 12) &&& 63),
     128 ||| ((n >>> 6) &&& 63), 128 ||| (n &&& 63)]

/-- `s.encode()`. -/
def utf8Encode (s : String) : List Nat := s.data.flatMap utf8Bytes

/-- Truncate to a 32-bit word. -/
def w32 (n : Nat) : Nat := n % 4294967296

/-- 32-bit right rotation. -/
def rotr32 (k x : Nat) : Nat := w32 ((x >>> k) ||| (x <<< (32 - k)))

/-- 32-bit complement. -/
def not32 (x : Nat) : Nat := x ^^^ 4294967295

def shaK : List Nat :=
  [1116352408, 1899447441, 3049323471, 3921009573, 961987163, 1508970993,
   2453635748, 2870763221, 3624381080, 310598401, 607225278, 1426881987,
   1925078388, 2162078206, 2614888103, 3248222580, 3835390401, 4022224774,
   264347078, 604807628, 770255983, 1249150122, 1555081692, 1996064986,
   2554220882, 2821834349, 2952996808, 3210313671, 3336571891, 3584528711,
   113926993, 338241895, 666307205, 773529912, 1294757372, 1396182291,
   1695183700, 1986661051, 2177026350, 2456956037, 2730485921, 2820302411,
   3259730800, 3345764771, 3516065817, 3600352804, 4094571909, 275423344,
   430227734, 506948616, 659060556, 883997877, 958139571, 1322822218,
   1537002063, 1747873779, 1955562222, 2024104815, 2227730452, 2361852424,
   2428436474, 2756734187, 3204031479, 3329325298]

def shaH0 : List Nat :=
  [1779033703, 3144134277, 1013904242, 2773480762,
   1359893119, 2600822924, 528734635, 1541459225]

/-- Pad to a multiple of 64 bytes: `0x80`, zeros, 8-byte big-endian bit
length. -/
def padMessage (msg : List Nat) : List Nat :=
  let bitLen := msg.length * 8
  let zeros := (119 - msg.length % 64) % 64
  msg ++ [128] ++ List.replicate zeros 0 ++
    (List.range 8).map (fun i => (bitLen >>> ((7 - i) * 8)) % 256)

/-- Split into 64-byte blocks. -/
def chunks64 : List Nat → List (List Nat)
  | [] => []
  | a :: l => ((a :: l).take 64) :: chunks64 (l.drop 63)
termination_by l => l.length
decreasing_by simp; omega

/-- Big-endian 32-bit words from bytes. -/
def bytesToWords : List Nat → List Nat
  | b0 :: b1 :: b2 :: b3 :: rest =>
    ((((b0 <<< 8) ||| b1) <<< 8 ||| b2) <<< 8 ||| b3) :: bytesToWords rest
  | _ => []

def smallSigma0 (x : Nat) : Nat := (rotr32 7 x) ^^^ (rotr32 18 x) ^^^ (x >>> 3)

def smallSigma1 (x : Nat) : Nat := (rotr32 17 x) ^^^ (rotr32 19 x) ^^^ (x >>> 10)

def bigSigma0 (x : Nat) : Nat := (rotr32 2 x) ^^^ (rotr32 13 x) ^^^ (rotr32 22 x)

def bigSigma1 (x : Nat) : Nat := (rotr32 6 x) ^^^ (rotr32 11 x) ^^^ (rotr32 25 x)

/-- Extend the 16-word schedule by `i` more words. -/
def schedule (ws : List Nat) : Nat → List Nat
  | 0 => ws
  | i + 1 =>
    let n := ws.length
    let wt := w32 (smallSigma1 (ws.getD (n - 2) 0) + ws.getD (n - 7) 0 +
      smallSigma0 (ws.getD (n - 15) 0) + ws.getD (n - 16) 0)
    schedule (ws ++ [wt]) i

/-- One compression round; the state is the 8 working variables. -/
def compressStep (st : List Nat) (kw : Nat × Nat) : List Nat :=
  match st with
  | [a, b, c, d, e, f, g, h] =>
    let ch := (e &&& f) ^^^ ((not32 e) &&& g)
    let maj := (a &&& b) ^^^ (a &&& c) ^^^ (b &&& c)
    let t1 := w32 (h + bigSigma1 e + ch + kw.1 + kw.2)
    let t2 := w32 (bigSigma0 a + maj)
    [w32 (t1 + t2), a, b, c, w32 (d + t1), e, f, g]
  | _ => st

/-- Compress one 64-byte block into the hash state. -/
def compressBlock (h : List Nat) (block : List Nat) : List Nat :=
  let ws := schedule (bytesToWords block) 48
  let st := (shaK.zip ws).foldl compressStep h
  List.zipWith (fun x y => w32 (x + y)) h st

def sha256Words (msg : List Nat) : List Nat :=
  (chunks64 (padMessage msg)).foldl compressBlock shaH0

def hexDigit (n : Nat) : Char :=
  if n < 10 then Char.ofNat (48 + n) else Char.ofNat (87 + n)

def wordHex (w : Nat) : List Char :=
  (List.range 8).map (fun i => hexDigit ((w >>> ((7 - i) * 4)) % 16))

/-- `hashlib.sha256(bytes).hexdigest()`. -/
def sha256Hex (msg : List Nat) : String :=
  String.mk ((sha256Words msg).flatMap wordHex)

/-- `make_fingerprint`: first 16 hex characters of the SHA-256 of
`domain|normalised_subject`. -/
def make_fingerprint (subject sender : String) : String :=
  let norm := normalize_subject subject
  let domain := sender_domain sender
  let raw := domain ++ "|" ++ norm
  pyTake 16 (sha256Hex (utf8Encode raw))

/-- One classification blob, as stored in the template cache and as one
`email_analyses` row's classification fields. -/
structure TemplateBlob where
  category : String
  sub_category : String
  confidence : ℚ
  analysis_source : String
  summary : String
  urgency : String
  action_required : Bool
deriving DecidableEq

/-- The scan-scoped `TemplateCache` (fingerprint → blob; newest entry
first, as a Python dict update would overwrite). -/
structure TemplateCache where
  cache : List (String × TemplateBlob)
deriving DecidableEq

def TemplateCache.get (tc : TemplateCache) (fingerprint : String) :
    Option TemplateBlob :=
  tc.cache.lookup fingerprint

def TemplateCache.put (tc : TemplateCache) (fingerprint : String)
    (blob : TemplateBlob) : TemplateCache :=
  ⟨(fingerprint, blob) :: tc.cache⟩

end Dasher

namespace Dasher

/-! ## `services/email_classifier.py`

The rule classifier.  `classify_email` is the inline if-chain of the
source; the `CATEGORY_PATTERNS` data bank defined at the top of the file
is not consulted by `classify_email` and is not embedded.  The unused
local `text = subj + " " + body_lower` is likewise dropped.  Nested
blocks (the Checkr-sender block) are flattened: each inner condition is
conjoined with the block guard, preserving fall-through. -/

structure ClassificationResult where
  category : String
  sub_category : String
  confidence : ℚ
  summary : String
  urgency : String
  action_required : Bool
deriving DecidableEq

/-- `_score_confidence`: adjust confidence by match quality. -/
def _score_confidence (base : ℚ) (match_type : String) : ℚ :=
  if match_type = "exact" then min 1 (max 0.7 base)
  else if match_type = "regex" then
    if base ≥ 0.9 then min 1 (max 0.7 (base * 0.95)) else max 0.7 base
  else 0.7

/-- `\s*`. -/
def wss : Tok := .cls isSpc 0 none

/-- `_BGC_ALIASES`: `background\s*check`, `bgc` or `bg\s*check`, as
alternative token sequences. -/
def bgcAliasSeqs : List (List Tok) :=
  [[lit "background", wss, lit "check"], [lit "bgc"], [lit "bg", wss, lit "check"]]

def reDasherDeactivated : RePat :=
  [[lit "dasher", wsp, lit "account", wsp, lit "has", wsp, lit "been",
    wsp, lit "deactivated"]]

def reReactivat : RePat := [[lit "reactivat"]]

def reDasher : RePat := [[lit "dasher"]]

def reDoordash : RePat := [[lit "doordash"]]

def reContractViolation : RePat :=
  [[lit "contract", wsp, lit "violation"], [lit "violation", wsp, lit "notice"]]

def reRating : RePat := [[lit "rating"]]

def reWarningLowRisk : RePat := [[lit "warning"], [lit "low"], [lit "risk"]]

/-- `_RE_BGC_COMPLETE`: a BGC alias, a gap, optionally `is\s+`, then
`complete`. -/
def _RE_BGC_COMPLETE : RePat :=
  bgcAliasSeqs.flatMap (fun a =>
    [a ++ [Tok.gap, lit "is", wsp, lit "complete"],
     a ++ [Tok.gap, lit "complete"]])

def _RE_BGC_CONSIDER : RePat :=
  [[lit "could", wsp, lit "potentially", wsp, lit "impact"],
   [lit "record", Tok.gap, lit "found"], [lit "record", Tok.gap, lit "flagged"],
   [lit "item", Tok.gap, lit "found"], [lit "item", Tok.gap, lit "flagged"],
   [lit "adverse", Tok.gap, lit "action"], [lit "adverse", Tok.gap, lit "finding"]]

def _RE_BGC_PENDING : RePat :=
  (bgcAliasSeqs.flatMap (fun a =>
    [a ++ [Tok.gap, lit "taking", wsp, lit "longer"],
     a ++ [Tok.gap, lit "paused"]])) ++
  [[lit "more", wsp, lit "information", wsp, lit "needed"],
   [lit "finish", wsp, lit "your", wsp, lit "personal", wsp, lit "check"]]

/-- Helper for `_RE_BGC_SUBMITTED`: at this position, some BGC alias
matches and the negative lookahead `.*complete` fails on the remainder. -/
def bgcAliasNoComplete (prev : Option Char) (cs : List Char) : Bool :=
  bgcAliasSeqs.any (fun a =>
    (matchSeq a prev cs).any (fun pr =>
      !(searchFrom [[lit "complete"]] pr.1 pr.2)))

/-- Scan for a position where `bgcAliasNoComplete` holds. -/
def bgcSubmittedFrom : Option Char → List Char → Bool
  | prev, [] => bgcAliasNoComplete prev []
  | prev, c :: rest =>
    if bgcAliasNoComplete prev (c :: rest) then true
    else bgcSubmittedFrom (some c) rest

/-- `_RE_BGC_SUBMITTED.search`: a BGC alias not followed anywhere by
`complete` (the compiled pattern's negative lookahead). -/
def _RE_BGC_SUBMITTED_search (s : String) : Bool := bgcSubmittedFrom none s.data

def _RE_IDENTITY_VERIFIED : RePat :=
  [[lit "identity", Tok.gap, lit "verified"], [lit "information", wsp, lit "verified"]]

def _RE_CHECKR_CONSENT : RePat :=
  [[lit "agreed", wsp, lit "to", wsp, lit "checkr"],
   [lit "verify", wsp, lit "your", wsp, lit "email"]]

def _RE_MORE_INFO : RePat := [[lit "more", wsp, lit "information"]]

def _RE_CHECKR_SENDER : RePat := [[lit "checkr"]]

def reWelcome : RePat := [[lit "welcome"]]

def reAccountActivat : RePat := [[lit "account", Tok.gap, lit "activat"]]

def reDeactivat : RePat := [[lit "deactivat"]]

def reWeeklyPay : RePat :=
  [[lit "your", wsp, lit "weekly", wsp, lit "pay"],
   [lit "your", wsp, lit "weekly", wsp, lit "earnings"],
   [lit "weekly", wsp, lit "pay"], [lit "weekly", wsp, lit "earnings"],
   [lit "pay", wsp, lit "statement"]]

def reDirectDeposit : RePat :=
  [[lit "direct", wsp, lit "deposit"], [lit "fast", wsp, lit "pay", wsp, lit "transfer"]]

def reEarningsSummary : RePat :=
  [[lit "you", wsp, lit "earned"], [lit "your", wsp, lit "earnings"],
   [lit "earnings", wsp, lit "summary"], [lit "delivery", wsp, lit "summary"]]

def reTax : RePat :=
  [[lit "1099"], [lit "tax", wsp, lit "document"], [lit "tax", wsp, lit "form"],
   [lit "tax", wsp, lit "statement"]]

def reFirstDash : RePat :=
  [[lit "first", wsp, lit "dash", Tok.gap, lit "done"],
   [lit "first", wsp, lit "dash", Tok.gap, lit "complete"],
   [lit "first", wsp, lit "dash", Tok.gap, lit "finished"],
   [lit "your", wsp, lit "first", wsp, lit "dash"],
   [lit "congratulations", Tok.gap, lit "first", wsp, lit "dash"],
   [lit "you", wsp, lit "completed", Tok.gap, lit "first", wsp, lit "dash"],
   [lit "you", wsp, lit "completed", Tok.gap, lit "dash"]]

def reDashOpportunity : RePat :=
  [[lit "new", wsp, lit "dash", wsp, lit "available"],
   [lit "time", wsp, lit "to", wsp, lit "dash"],
   [lit "dash", wsp, lit "opportunity"],
   [lit "busy", wsp, lit "near", wsp, lit "you"]]

def reUpdate : RePat := [[lit "update"]]

def rePolicy : RePat :=
  [[lit "policy", wsp, lit "update"], [lit "terms", wsp, lit "of", wsp, lit "service"],
   [lit "agreement", wsp, lit "update"], [lit "ica", wsp, lit "update"]]

def reSurvey : RePat :=
  [[lit "how", wsp, lit "was", wsp, lit "your", wsp, lit "experience"],
   [lit "survey"], [lit "feedback"]]

def rePromotion : RePat :=
  [[lit "promotion"], [lit "bonus"], [lit "challenge"], [lit "incentive"],
   [lit "prop", wsp, lit "22"]]

def rePaymentBank : RePat :=
  [[lit "payment", wsp, lit "processed"], [lit "dasher", wsp, lit "pay"],
   [lit "dasher", wsp, lit "bank"], [lit "dasher", wsp, lit "welcome", wsp, lit "gift"]]

def reInsurance : RePat :=
  [[lit "insurance"], [lit "coverage"], [lit "claim"], [lit "liability"],
   [lit "workers", Tok.gap, lit "comp"]]

def reScheduling : RePat :=
  [[lit "schedule"], [lit "shift"], [lit "availability"],
   [lit "time", wsp, lit "slot"], [lit "peak", wsp, lit "pay"]]

def reEquipment : RePat :=
  [[lit "red", wsp, lit "card"], [lit "activation", wsp, lit "kit"],
   [lit "hot", wsp, lit "bag"], [lit "equipment"], [lit "dasher", wsp, lit "kit"]]

def reComplete : RePat := [[lit "complete"]]

/-- The ordered rule bank of `classify_email` over the lowered locals
`subj`, `sndr`, `body_lower`: the source's if-chain, one entry per
branch in source order, each a guard paired with the branch's result.
The nested BGC-complete branch carries its body-dependent result; the
Checkr-sender block's inner conditions are conjoined with the block
guard, preserving fall-through. -/
def classifyRules (subj sndr body_lower : String) :
    List (Bool × ClassificationResult) :=
  [(reSearch reDasherDeactivated subj,
    ⟨"account", "deactivation", 1.0,
     "Dasher account has been deactivated", "critical", true⟩),
   (reSearch reReactivat subj &&
      (reSearch reDasher subj || reSearch reDoordash sndr),
    ⟨"account", "reactivation", _score_confidence 0.9 "regex",
     "Account reactivation notification", "high", true⟩),
   (reSearch reContractViolation subj,
    ⟨"warning", "contract_violation", _score_confidence 0.95 "exact",
     "Contract violation reported", "critical", true⟩),
   (reSearch reRating subj && reSearch reWarningLowRisk subj,
    ⟨"warning", "low_rating_warning", _score_confidence 0.85 "regex",
     "Low rating warning received", "warning", true⟩),
   (reSearch _RE_BGC_COMPLETE subj,
    if reSearch _RE_BGC_CONSIDER body_lower then
      ⟨"bgc", "consider", _score_confidence 1.0 "exact",
       "Background check complete with considerations", "high", true⟩
    else
      ⟨"bgc", "clear", _score_confidence 0.95 "regex",
       "Background check completed clear", "medium", false⟩),
   (reSearch _RE_CHECKR_SENDER sndr && reSearch _RE_BGC_PENDING subj,
    ⟨"bgc", "pending", _score_confidence 0.9 "regex",
     "Background check in progress, action may be needed", "medium",
     reSearch _RE_MORE_INFO subj⟩),
   (reSearch _RE_CHECKR_SENDER sndr && _RE_BGC_SUBMITTED_search subj &&
      !(reSearch reComplete subj),
    ⟨"bgc", "submitted", _score_confidence 0.85 "regex",
     "Background check submitted/processing", "low", false⟩),
   (reSearch _RE_CHECKR_SENDER sndr && reSearch _RE_IDENTITY_VERIFIED subj,
    ⟨"bgc", "identity_verified", _score_confidence 0.95 "exact",
     "Identity verification completed", "medium", false⟩),
   (reSearch _RE_CHECKR_SENDER sndr && reSearch _RE_CHECKR_CONSENT subj,
    ⟨"bgc", "submitted", _score_confidence 0.8 "regex",
     "Checkr consent/verification step", "low", false⟩),
   (reSearch _RE_IDENTITY_VERIFIED subj,
    ⟨"bgc", "identity_verified", _score_confidence 0.9 "regex",
     "Identity verification completed", "medium", false⟩),
   (reSearch reWelcome subj &&
      (reSearch reDasher subj || reSearch reDoordash sndr),
    ⟨"account", "welcome", _score_confidence 0.9 "regex",
     "Welcome to DoorDash/Dasher", "info", false⟩),
   (reSearch reAccountActivat subj && !(reSearch reDeactivat subj),
    ⟨"account", "activation", _score_confidence 0.85 "regex",
     "Account activation notification", "medium", false⟩),
   (reSearch reWeeklyPay subj,
    ⟨"earnings", "weekly_pay", _score_confidence 0.95 "exact",
     "Weekly pay statement", "low", false⟩),
   (reSearch reDirectDeposit subj,
    ⟨"earnings", "direct_deposit", _score_confidence 0.95 "exact",
     "Direct deposit or fast pay notification", "low", false⟩),
   (reSearch reEarningsSummary subj,
    ⟨"earnings", "earnings_summary", _score_confidence 0.9 "regex",
     "Earnings or delivery summary", "low", false⟩),
   (reSearch reTax subj,
    ⟨"earnings", "tax_document", _score_confidence 0.95 "exact",
     "Tax document available", "medium", true⟩),
   (reSearch reFirstDash subj,
    ⟨"earnings", "earnings_summary", _score_confidence 0.95 "exact",
     "First dash completed - account is active", "low", false⟩),
   (reSearch reDashOpportunity subj,
    ⟨"operational", "dash_opportunity", _score_confidence 0.85 "regex",
     "Dash opportunity available", "info", false⟩),
   (reSearch reRating subj && reSearch reUpdate subj,
    ⟨"operational", "rating_update", _score_confidence 0.8 "regex",
     "Rating update notification", "low", false⟩),
   (reSearch rePolicy subj,
    ⟨"operational", "policy_update", _score_confidence 0.85 "regex",
     "Policy or terms update", "medium", true⟩),
   (reSearch reSurvey subj,
    ⟨"operational", "survey", _score_confidence 0.7 "regex",
     "Experience feedback request", "info", false⟩),
   (reSearch rePromotion subj,
    ⟨"operational", "promotion", _score_confidence 0.8 "regex",
     "Promotion or incentive notification", "info", false⟩),
   (reSearch rePaymentBank subj,
    ⟨"earnings", "direct_deposit", _score_confidence 0.8 "regex",
     "Payment or bank related notification", "low", false⟩),
   (reSearch reInsurance subj,
    ⟨"insurance", "insurance", _score_confidence 0.85 "regex",
     "Dasher insurance related notification", "medium", false⟩),
   (reSearch reScheduling subj,
    ⟨"scheduling", "scheduling", _score_confidence 0.85 "regex",
     "Shift or schedule notification", "low", false⟩),
   (reSearch reEquipment subj,
    ⟨"equipment", "equipment", _score_confidence 0.85 "regex",
     "Equipment or kit notification", "low", false⟩),
   (reSearch reDoordash sndr,
    ⟨"unknown", "needs_review", 0.5,
     "Unclassified DoorDash email", "low", false⟩)]

/-- Evaluate the rule bank top-down; the first matching rule wins;
no match yields `none`. -/
def classifyChain (subj sndr body_lower : String) :
    Option ClassificationResult :=
  ((classifyRules subj sndr body_lower).find? (fun rule => rule.1)).map
    (fun rule => rule.2)

/-- `classify_email`: lower the inputs, then run the rule chain.
Returns `none` when no rule matches and the sender is not a DoorDash
address. -/
def classify_email (subject sender : String) (body : String := "") :
    Option ClassificationResult :=
  classifyChain (_lower subject) (_lower sender) (_lower body)

def CONFIDENCE_THRESHOLD : ℚ := 0.7

/-- `classify_with_threshold`: classify and report whether the LLM is
needed (`result, needs_ai`). -/
def classify_with_threshold (subject sender : String) (body : String := "") :
    Option ClassificationResult × Bool :=
  match classify_email subject sender body with
  | none => (none, true)
  | some r =>
    if r.confidence < CONFIDENCE_THRESHOLD then (some r, true) else (some r, false)

end Dasher

namespace Dasher

/-! ## `services/ai_analyzer.py`

The network call is external; its pure tail is embedded.  A successful
HTTP+JSON round trip yields a parsed object, modelled as `RawAI` with
`Option` fields for keys the model may omit (a missing or unparsable
`confidence` is `none`); total failure after all retries is modelled as
the `Option.none` outcome fed to the pipeline. -/

/-- The source's `_smart_truncate` marker (19 characters). -/
def truncMarker : String := "\n...[truncated]...\n"

/-- `_smart_truncate(body, max_total=2000)`: keep the first 1500 and
last 500 characters with the marker between when the body exceeds
`max_total`. -/
def _smart_truncate (body : String) (max_total : Nat := 2000) : String :=
  if body.length ≤ max_total then body
  else String.mk (body.data.take 1500 ++ truncMarker.data ++
    body.data.drop (body.data.length - 500))

/-- A parsed LLM JSON response before validation. -/
structure RawAI where
  category : Option String
  sub_category : Option String
  summary : Option String
  urgency : Option String
  action_required : Option Bool
  key_details : Option String
  confidence : Option ℚ
deriving DecidableEq

/-- A validated LLM response: required fields defaulted, confidence
clamped to the unit interval. -/
structure ValidatedAI where
  category : String
  sub_category : String
  summary : String
  urgency : String
  action_required : Bool
  key_details : Option String
  confidence : ℚ
deriving DecidableEq

/-- `_validate_response`: fill defaults, clamp confidence to 0..1. -/
def _validate_response (r : RawAI) : ValidatedAI :=
  { category := r.category.getD "unknown"
    sub_category := r.sub_category.getD "unclassified"
    summary := r.summary.getD ""
    urgency := r.urgency.getD "info"
    action_required := r.action_required.getD false
    key_details := r.key_details
    confidence := max 0 (min 1 (r.confidence.getD 0)) }

/-! ## `services/analysis_pipeline.py` -/

/-- `_smart_context`: first 1500 + last 500 characters. -/
def _smart_context (body : String) : String :=
  if body.length ≤ 2000 then body
  else String.mk (body.data.take 1500 ++ truncMarker.data ++
    body.data.drop (body.data.length - 500))

/-- The pinned `_CLASSIFIER_RULES_VERSION` ("2026-02-13T00:00:00Z").
Timestamps are modelled as natural-number keys ordered like the ISO
strings. -/
def _CLASSIFIER_RULES_VERSION : Nat := 20260213000000

/-- One cached `email_analyses` row, as read back from the DB.
`created_at` is `none` when the column is missing or unparsable. -/
structure DbRow where
  category : String
  sub_category : String
  confidence : ℚ
  analysis_source : String
  summary : String
  urgency : String
  action_required : Bool
  created_at : Option Nat
deriving DecidableEq

/-- `_should_invalidate_cache`: only `rules`-sourced rows created before
the pinned rules version are stale. -/
def _should_invalidate_cache (row : DbRow) : Bool :=
  match row.created_at with
  | none => false
  | some created =>
    if row.analysis_source ≠ "rules" then false
    else decide (created < _CLASSIFIER_RULES_VERSION)

/-- The `analysis_data` dict `analyze_email` persists and returns. -/
structure AnalysisData where
  category : String
  sub_category : String
  confidence : ℚ
  analysis_source : String
  summary : String
  urgency : String
  action_required : Bool
  key_details : Option String
  raw_ai_response : Option ValidatedAI
deriving DecidableEq

/-- `analyze_email`'s outcome: a valid cached row returned unchanged, or
a freshly produced row (the upserted `analysis_data`) together with the
template cache as left by the call. -/
inductive AnalyzeOut where
  | cached (row : DbRow)
  | produced (data : AnalysisData) (tc : TemplateCache)
deriving DecidableEq

/-- Steps 2..4 of `analyze_email` (rule engine, AI fallback, cache
result).  `aiOutcome` is the LLM call's result: `none` models "not
configured or failed after all retries"; `some raw` models a successful
call, which the source validates before use. -/
def analyzeEmailCore (subject sender body : String)
    (template_cache : TemplateCache) (aiOutcome : Option RawAI) : AnalyzeOut :=
  let body_context := _smart_context body
  let rn := classify_with_threshold subject sender body_context
  -- (result, analysis_source, raw_ai, template cache) after the AI step
  let step : Option ClassificationResult × String × Option ValidatedAI × TemplateCache :=
    if rn.2 then
      match aiOutcome with
      | some raw =>
        let ai := _validate_response raw
        let r : ClassificationResult :=
          ⟨ai.category, ai.sub_category, ai.confidence, ai.summary,
           ai.urgency, ai.action_required⟩
        let fingerprint := make_fingerprint subject sender
        (some r, "ai", some ai, template_cache.put fingerprint
          ⟨ai.category, ai.sub_category, ai.confidence, "ai", ai.summary,
           ai.urgency, ai.action_required⟩)
      | none => (rn.1, "rules", none, template_cache)
    else (rn.1, "rules", none, template_cache)
  match step.1 with
  | none =>
    .produced
      { category := "unknown", sub_category := "unclassified",
        confidence := 0, analysis_source := "manual",
        summary := "Could not classify: " ++ pyTake 100 subject,
        urgency := "low", action_required := false,
        key_details := none, raw_ai_response := none }
      step.2.2.2
  | some r =>
    .produced
      { category := r.category, sub_category := r.sub_category,
        confidence := r.confidence, analysis_source := step.2.1,
        summary := r.summary, urgency := r.urgency,
        action_required := r.action_required,
        key_details := (step.2.2.1.bind (fun ai => ai.key_details)),
        raw_ai_response := step.2.2.1 }
      step.2.2.2

/-- `analyze_email`: step 1 returns a valid cached row unchanged;
otherwise the pipeline produces a row. -/
def analyze_email (subject sender body : String)
    (template_cache : TemplateCache) (cachedRow : Option DbRow)
    (aiOutcome : Option RawAI) : AnalyzeOut :=
  match cachedRow with
  | some cached =>
    if _should_invalidate_cache cached then
      analyzeEmailCore subject sender body template_cache aiOutcome
    else .cached cached
  | none => analyzeEmailCore subject sender body template_cache aiOutcome

end Dasher

namespace Dasher

/-! ## `services/stage_detector.py`

Messages are dicts with subject, sender and date fields.  The parsed
date (`_parse_date`) is modelled as an `Option Nat` ordered like the
parsed datetimes, with a missing or unparsable date behaving as the
minimum (`none`, sort key 0). -/

inductive Stage where
  | REGISTERED
  | IDENTITY_VERIFIED
  | BGC_PENDING
  | BGC_CLEAR
  | BGC_CONSIDER
  | ACTIVE
  | DEACTIVATED
deriving DecidableEq, Fintype

/-- `STAGE_PRIORITY`: higher number = higher priority. -/
def STAGE_PRIORITY : Stage → Nat
  | .REGISTERED => 0
  | .IDENTITY_VERIFIED => 1
  | .BGC_PENDING => 2
  | .BGC_CLEAR => 3
  | .BGC_CONSIDER => 4
  | .ACTIVE => 5
  | .DEACTIVATED => 6

/-- One message header: subject, sender (`from`/`sender` resolved) and
the parsed date. -/
structure Msg where
  subject : String
  sender : String
  date : Option Nat
deriving DecidableEq

/-- `_DEACTIVATION_PATTERNS`. -/
def _DEACTIVATION_PATTERNS : List RePat :=
  [[[lit "dasher", wsp, lit "account", wsp, lit "has", wsp, lit "been",
     wsp, lit "deactivated"]],
   [[lit "account", Tok.gap, lit "deactivat"]],
   [[lit "deactivation", Tok.gap, lit "confirm"]],
   [[lit "your", wsp, lit "account", wsp, lit "is", Tok.gap, lit "deactivat"]],
   [[lit "account", Tok.gap, lit "suspend"]],
   [[lit "permanently", Tok.gap, lit "deactivat"]]]

/-- `_REACTIVATION_PATTERNS`. -/
def _REACTIVATION_PATTERNS : List RePat :=
  [[[lit "account", Tok.gap, lit "reactivat"]],
   [[lit "welcome", wsp, lit "back"]],
   [[lit "reactivation", Tok.gap, lit "complete"]],
   [[lit "account", Tok.gap, lit "restored"]]]

/-- `_ACTIVE_PATTERNS`. -/
def _ACTIVE_PATTERNS : List RePat :=
  [[[lit "payment", wsp, lit "processed"]],
   [[lit "pay", wsp, lit "statement"]],
   [[lit "fast", wsp, lit "pay", wsp, lit "transfer"]],
   [[lit "dasher", wsp, lit "welcome", wsp, lit "gift"]],
   [[lit "your", wsp, lit "first", wsp, lit "dash"]],
   [[lit "first", wsp, lit "dash", Tok.gap, lit "done"],
    [lit "first", wsp, lit "dash", Tok.gap, lit "complete"],
    [lit "first", wsp, lit "dash", Tok.gap, lit "finished"]],
   [[lit "congratulations", Tok.gap, lit "first", wsp, lit "dash"]],
   [[lit "you", wsp, lit "completed", Tok.gap, lit "first", wsp, lit "dash"],
    [lit "you", wsp, lit "completed", Tok.gap, lit "dash"]]]

/-- `_BGC_COMPLETE_PATTERN`: `background\s+check` or `bgc`, then
`\s+is\s+complete`. -/
def _BGC_COMPLETE_PATTERN : RePat :=
  [[lit "background", wsp, lit "check", wsp, lit "is", wsp, lit "complete"],
   [lit "bgc", wsp, lit "is", wsp, lit "complete"]]

/-- `_BGC_PENDING_PATTERNS` (the detector's own list; note `let'?s` is
flattened into its two spellings). -/
def _BGC_PENDING_PATTERNS : List RePat :=
  [[[lit "background", wsp, lit "check", wsp, lit "is", wsp, lit "taking",
     wsp, lit "longer"],
    [lit "bgc", wsp, lit "is", wsp, lit "taking", wsp, lit "longer"]],
   [[lit "background", wsp, lit "check", wsp, lit "paused"],
    [lit "bgc", wsp, lit "paused"]],
   [[lit "more", wsp, lit "information", wsp, lit "needed"]],
   [[lit "let\x27s", wsp, lit "find", wsp, lit "your", wsp, lit "background",
     wsp, lit "check"],
    [lit "let\x27s", wsp, lit "find", wsp, lit "your", wsp, lit "bgc"],
    [lit "lets", wsp, lit "find", wsp, lit "your", wsp, lit "background",
     wsp, lit "check"],
    [lit "lets", wsp, lit "find", wsp, lit "your", wsp, lit "bgc"]],
   [[lit "agreed", wsp, lit "to", wsp, lit "checkr"]],
   [[lit "verify", wsp, lit "your", wsp, lit "email"]],
   [[lit "finish", wsp, lit "your", wsp, lit "personal", wsp, lit "check"]]]

/-- `_BGC_GENERIC_PATTERN`: `background\s+check` or `bgc`. -/
def _BGC_GENERIC_PATTERN : RePat :=
  [[lit "background", wsp, lit "check"], [lit "bgc"]]

/-- `_COMPLETE_PATTERN`. -/
def _COMPLETE_PATTERN : RePat := [[lit "complete"]]

/-- `_IDENTITY_VERIFIED_PATTERNS` (detector). -/
def _IDENTITY_VERIFIED_PATTERNS : List RePat :=
  [[[lit "identity", Tok.gap, lit "verified"]],
   [[lit "information", wsp, lit "verified"]]]

/-- `_BGC_CONSIDER_BODY_PATTERNS`. -/
def _BGC_CONSIDER_BODY_PATTERNS : List RePat :=
  [[[lit "could", wsp, lit "potentially", wsp, lit "impact"]],
   [[lit "disqualif"]],
   [[lit "may", wsp, lit "affect", wsp, lit "eligibility"]],
   [[lit "adverse", Tok.gap, lit "action"]],
   [[lit "require", Tok.gap, lit "review"]]]

/-- `_any_match`: any of the compiled patterns matches the text. -/
def _any_match (patterns : List RePat) (text : String) : Bool :=
  patterns.any (fun p => reSearch p text)

/-- `BGC_VENDORS`. -/
def BGC_VENDORS : List String := ["checkr", "onfido", "sterling", "accurate", "certn"]

/-- `_is_bgc_vendor`: the lowercased sender contains a vendor name. -/
def _is_bgc_vendor (sender : String) : Bool :=
  BGC_VENDORS.any (fun v => reSearch [[litCS v]] (String.mk (pyLowerList sender.data)))

/-- `_is_active_signal` (the sender argument is unused in the source). -/
def _is_active_signal (subject _sender : String) : Bool :=
  _any_match _ACTIVE_PATTERNS subject

/-- `_is_bgc_pending_signal`. -/
def _is_bgc_pending_signal (subject sender : String) : Bool :=
  if !(_is_bgc_vendor sender) then false
  else if _any_match _BGC_PENDING_PATTERNS subject then true
  else if reSearch _BGC_GENERIC_PATTERN subject &&
      !(reSearch _COMPLETE_PATTERN subject) then true
  else false

/-- `_is_identity_verified_signal` (sender unused in the source). -/
def _is_identity_verified_signal (subject _sender : String) : Bool :=
  _any_match _IDENTITY_VERIFIED_PATTERNS subject

/-- `_HIGH_CONFIDENCE_DEACTIVATION` is the first deactivation pattern,
`_HIGH_CONFIDENCE_ACTIVE` the first two active patterns. -/
def _compute_confidence (stage : Stage) (subject _sender : String) : String :=
  match stage with
  | .DEACTIVATED =>
    if reSearch [[lit "dasher", wsp, lit "account", wsp, lit "has", wsp,
        lit "been", wsp, lit "deactivated"]] subject then "high" else "medium"
  | .ACTIVE =>
    if reSearch [[lit "payment", wsp, lit "processed"]] subject ||
       reSearch [[lit "pay", wsp, lit "statement"]] subject then "high"
    else if _any_match _REACTIVATION_PATTERNS subject then "medium"
    else "medium"
  | .BGC_CLEAR =>
    if reSearch _BGC_COMPLETE_PATTERN subject then "high" else "medium"
  | .BGC_CONSIDER =>
    if reSearch _BGC_COMPLETE_PATTERN subject then "high" else "medium"
  | .BGC_PENDING =>
    if _any_match _BGC_PENDING_PATTERNS subject then "high"
    else if reSearch _BGC_GENERIC_PATTERN subject then "low"
    else "medium"
  | .IDENTITY_VERIFIED =>
    if _any_match _IDENTITY_VERIFIED_PATTERNS subject then "high" else "medium"
  | _ => "low"

/-- The sort key `_parse_date` yields (missing/unparsable = minimum). -/
def sortKey (m : Msg) : Nat := m.date.getD 0

/-- Insert into a descending-sorted list, after entries with a date not
smaller (stability of Python's `sorted`). -/
def insertByDateDesc (m : Msg) : List Msg → List Msg
  | [] => [m]
  | x :: xs =>
    if sortKey m < sortKey x then x :: insertByDateDesc m xs
    else m :: x :: xs

/-- `_sort_messages_by_date`: stable sort, newest first. -/
def _sort_messages_by_date : List Msg → List Msg
  | [] => []
  | m :: ms => insertByDateDesc m (_sort_messages_by_date ms)

/-- The detector's per-message loop.  State: detected stage, trigger
subject, trigger date, deferred body-check messages, the `reactivated`
flag and the confidence string. -/
def detectLoop : List Msg → Stage → Option String → Option Nat →
    List Msg → Bool → String → Stage × Option String × Option Nat × List Msg
  | [], stage, ts, td, nbc, _, _ => (stage, ts, td, nbc)
  | m :: rest, stage, ts, td, nbc, reactivated, conf =>
    let subject := _lower m.subject
    let sender := _lower m.sender
    if _any_match _REACTIVATION_PATTERNS subject then
      if STAGE_PRIORITY Stage.ACTIVE > STAGE_PRIORITY stage then
        detectLoop rest Stage.ACTIVE (some m.subject) m.date nbc true
          (_compute_confidence Stage.ACTIVE subject sender)
      else detectLoop rest stage ts td nbc true conf
    else if _any_match _DEACTIVATION_PATTERNS subject then
      if !reactivated then (Stage.DEACTIVATED, some m.subject, m.date, [])
      else detectLoop rest stage ts td nbc reactivated conf
    else if _is_active_signal subject sender then
      if STAGE_PRIORITY Stage.ACTIVE > STAGE_PRIORITY stage then
        detectLoop rest Stage.ACTIVE (some m.subject) m.date nbc reactivated
          (_compute_confidence Stage.ACTIVE subject sender)
      else detectLoop rest stage ts td nbc reactivated conf
    else if reSearch _BGC_COMPLETE_PATTERN subject then
      let nbc2 := nbc ++ [m]
      if STAGE_PRIORITY Stage.BGC_CLEAR > STAGE_PRIORITY stage then
        detectLoop rest Stage.BGC_CLEAR (some m.subject) m.date nbc2 reactivated
          (_compute_confidence Stage.BGC_CLEAR subject sender)
      else detectLoop rest stage ts td nbc2 reactivated conf
    else if _is_bgc_pending_signal subject sender then
      if STAGE_PRIORITY Stage.BGC_PENDING > STAGE_PRIORITY stage then
        detectLoop rest Stage.BGC_PENDING (some m.subject) m.date nbc reactivated
          (_compute_confidence Stage.BGC_PENDING subject sender)
      else detectLoop rest stage ts td nbc reactivated conf
    else if _is_identity_verified_signal subject sender then
      if STAGE_PRIORITY Stage.IDENTITY_VERIFIED > STAGE_PRIORITY stage then
        detectLoop rest Stage.IDENTITY_VERIFIED (some m.subject) m.date nbc
          reactivated (_compute_confidence Stage.IDENTITY_VERIFIED subject sender)
      else detectLoop rest stage ts td nbc reactivated conf
    else detectLoop rest stage ts td nbc reactivated conf

/-- `detect_stage_from_messages`: sort newest first, then run the loop
from `REGISTERED`. -/
def detect_stage_from_messages (messages : List Msg) :
    Stage × Option String × Option Nat × List Msg :=
  detectLoop (_sort_messages_by_date messages) Stage.REGISTERED none none [] false "low"

/-- `check_bgc_body`: adverse-action body patterns decide CONSIDER. -/
def check_bgc_body (body_text : String) : Stage :=
  if _any_match _BGC_CONSIDER_BODY_PATTERNS body_text then Stage.BGC_CONSIDER
  else Stage.BGC_CLEAR

end Dasher

namespace Dasher

/-! ## `services/scanner.py`

`scan_single_account`'s stage computation and write decision, and the
per-message body of `_classify_recent_emails`.  The HTTP body fetch for
deferred BGC messages is an input `getBody : Msg → Option String`
(`none` models a missing message path or a failed fetch); the DB update,
stage-history insert and alert insert are I/O driven by the returned
decision. -/

/-- The new stage (with trigger subject/date) after the detector pass
and the deferred BGC body checks of `scan_single_account`. -/
def scan_new_stage (messages : List Msg) (getBody : Msg → Option String) :
    Stage × Option String × Option Nat :=
  let r := detect_stage_from_messages messages
  let new_stage := r.1
  let trigger_subject := r.2.1
  let trigger_date := r.2.2.1
  let needs_body_check := r.2.2.2
  if needs_body_check ≠ [] ∧
      (new_stage = Stage.BGC_CLEAR ∨ new_stage = Stage.BGC_CONSIDER) then
    needs_body_check.foldl (fun cur m =>
      match getBody m with
      | some body =>
        let body_stage := check_bgc_body body
        if STAGE_PRIORITY cur.1 < STAGE_PRIORITY body_stage then
          (body_stage, some m.subject, m.date)
        else cur
      | none => cur) (new_stage, trigger_subject, trigger_date)
  else (new_stage, trigger_subject, trigger_date)

/-- `stage_changed = new_stage != old_stage and
STAGE_PRIORITY[new_stage] > STAGE_PRIORITY[old_stage]` — the scanner's
write decision: `true` exactly when the stage row is updated, a
stage-history row appended and an alert created. -/
def scan_stage_changed (old_stage : Stage) (messages : List Msg)
    (getBody : Msg → Option String) : Bool :=
  let new_stage := (scan_new_stage messages getBody).1
  (new_stage ≠ old_stage : Bool) &&
    decide (STAGE_PRIORITY new_stage > STAGE_PRIORITY old_stage)

/-- Was a reactivation-pattern subject detected among the messages?
(The evidence the spec's reactivation exception appeals to.) -/
def reactivation_evidence (messages : List Msg) : Bool :=
  messages.any (fun m => _any_match _REACTIVATION_PATTERNS (_lower m.subject))

/-- The per-message body of `_classify_recent_emails` for one message:
skip if already classified in the DB; otherwise consult the template
cache (a hit persists the cached blob with a `_dedup`-suffixed source);
otherwise run the rule classifier (no body is passed during batch scan),
skip unclassifiable messages, and persist + cache a `rules` row.
Returns the persisted row, if any, and the updated cache. -/
def _classify_recent_emails_step (subject sender : String)
    (already_classified : Bool) (template_cache : TemplateCache) :
    Option TemplateBlob × TemplateCache :=
  if already_classified then (none, template_cache)
  else
    let fingerprint := make_fingerprint subject sender
    match template_cache.get fingerprint with
    | some cached =>
      let source := if pyEndsWith cached.analysis_source "_dedup" then
          cached.analysis_source
        else cached.analysis_source ++ "_dedup"
      (some { cached with analysis_source := source }, template_cache)
    | none =>
      match classify_with_threshold subject sender with
      | (none, _) => (none, template_cache)
      | (some r, _) =>
        let blob : TemplateBlob :=
          ⟨r.category, r.sub_category, r.confidence, "rules", r.summary,
           r.urgency, r.action_required⟩
        (some blob, template_cache.put fingerprint blob)

/-! ## `services/sse_bridge.py`

Subscriber queues are the bounded `asyncio.Queue`s (capacity 50); the
admin set is modelled as a list of (subscriber id, queue buffer) pairs
with distinct ids, and the portal registry as a list of
(email, subscriber set) pairs with distinct emails, mirroring the
`dict[str, set]`; `put_nowait` appends when there is room and fails
(raises `QueueFull`, caught by the publisher) when full. -/

/-- An SSE event as built by the broadcasters. -/
structure SSEEvent where
  etype : String
  edata : String
  timestamp : String
deriving DecidableEq

/-- `queue.put_nowait`: append if below capacity, else fail. -/
def put_nowait (maxsize : Nat) (buf : List SSEEvent) (e : SSEEvent) :
    Option (List SSEEvent) :=
  if buf.length < maxsize then some (buf ++ [e]) else none

/-- `SSEManager.broadcast_admin`: try every queue without blocking;
queues that are full when tried are collected and discarded from the
subscriber set after the loop. -/
def broadcast_admin (event_type data now : String)
    (queues : List (Nat × List SSEEvent)) : List (Nat × List SSEEvent) :=
  let event : SSEEvent := ⟨event_type, data, now⟩
  let attempts := queues.map (fun q =>
    match put_nowait 50 q.2 event with
    | some b => ((q.1, b), false)
    | none => (q, true))
  let dead := (attempts.filter (fun a => a.2)).map (fun a => a.1.1)
  (attempts.map (fun a => a.1)).filter (fun q => !(dead.contains q.1))

/-- The fan-out loop body shared verbatim by `broadcast_admin` and
`broadcast_portal` (sse_bridge.py lines 47–54 and 61–68): try
`put_nowait` on every queue of a set, collect the full ones in
`dead_queues`, and discard them from the set after the loop. -/
def broadcastStep (event : SSEEvent) (queues : List (Nat × List SSEEvent)) :
    List (Nat × List SSEEvent) :=
  let attempts := queues.map (fun q =>
    match put_nowait 50 q.2 event with
    | some b => ((q.1, b), false)
    | none => (q, true))
  let dead := (attempts.filter (fun a => a.2)).map (fun a => a.1.1)
  (attempts.map (fun a => a.1)).filter (fun q => !(dead.contains q.1))

/-- `SSEManager.broadcast_portal`: the queue set registered for `email`
gets the same try/collect/discard loop as `broadcast_admin`; every
other registry entry is untouched, and an absent email leaves the
registry unchanged (the early `return` — the registry's keys are
distinct, being a `dict`). -/
def broadcast_portal (email event_type data now : String)
    (portal : List (String × List (Nat × List SSEEvent))) :
    List (String × List (Nat × List SSEEvent)) :=
  portal.map (fun entry =>
    if entry.1 = email then (entry.1, broadcastStep ⟨event_type, data, now⟩ entry.2)
    else entry)

end Dasher

namespace Dasher

/-! ## Shared helper lemmas -/

/-- The stage priorities are injective: a strict priority increase
implies distinct stages. -/
theorem STAGE_PRIORITY_lt_ne (a b : Stage)
    (h : STAGE_PRIORITY a < STAGE_PRIORITY b) : b ≠ a := by
  revert h; revert a b; decide

set_option maxHeartbeats 3200000 in
/-- `classify_email` returns either the DoorDash catchall
(`unknown/needs_review`, confidence one half) or a positive match with
confidence in the interval from seven tenths to one. -/
theorem classifyChain_cases (subj sndr body_lower : String)
    (c : ClassificationResult)
    (h : classifyChain subj sndr body_lower = some c) :
    (c.category = "unknown" ∧ c.sub_category = "needs_review" ∧
      c.confidence = 0.5) ∨
    ((0.7 : ℚ) ≤ c.confidence ∧ c.confidence ≤ 1 ∧ c.category ≠ "unknown") := by
  unfold classifyChain at h
  rcases ho : (classifyRules subj sndr body_lower).find? (fun rule => rule.1)
    with _ | x
  · rw [ho] at h
    exact Option.noConfusion h
  · rw [ho] at h
    have hx : x ∈ classifyRules subj sndr body_lower :=
      List.mem_of_find?_eq_some ho
    obtain ⟨b, r⟩ := x
    have hc : r = c := by
      simpa using h
    subst hc
    simp only [classifyRules, List.mem_cons, List.not_mem_nil, or_false,
      Prod.mk.injEq] at hx
    rcases hx with ⟨-, rfl⟩|⟨_u, rfl⟩|⟨-, rfl⟩|⟨_u, rfl⟩|⟨-, rfl⟩|⟨_u, rfl⟩|
      ⟨-, rfl⟩|⟨_u, rfl⟩|⟨-, rfl⟩|⟨_u, rfl⟩|⟨-, rfl⟩|⟨_u, rfl⟩|⟨-, rfl⟩|
      ⟨_u, rfl⟩|⟨-, rfl⟩|⟨_u, rfl⟩|⟨-, rfl⟩|⟨_u, rfl⟩|⟨-, rfl⟩|⟨_u, rfl⟩|
      ⟨-, rfl⟩|⟨_u, rfl⟩|⟨-, rfl⟩|⟨_u, rfl⟩|⟨-, rfl⟩|⟨_u, rfl⟩|⟨-, rfl⟩
    all_goals solve
      | (left; exact ⟨rfl, rfl, rfl⟩)
      | (split <;>
          (right
           refine ⟨?_, ?_, ?_⟩ <;>
             solve
               | decide
               | (simp only [_score_confidence, String.reduceEq, reduceIte]
                  norm_num [min_def, max_def])
               | simp
               | norm_num [_score_confidence, min_def, max_def]))
      | (right
         refine ⟨?_, ?_, ?_⟩ <;>
           solve
             | decide
             | (simp only [_score_confidence, String.reduceEq, reduceIte]
                norm_num [min_def, max_def])
             | simp
             | norm_num [_score_confidence, min_def, max_def])

/-- The same case analysis through `classify_email`. -/
theorem classify_email_cases (subject sender body : String)
    (c : ClassificationResult)
    (h : classify_email subject sender body = some c) :
    (c.category = "unknown" ∧ c.sub_category = "needs_review" ∧
      c.confidence = 0.5) ∨
    ((0.7 : ℚ) ≤ c.confidence ∧ c.confidence ≤ 1 ∧ c.category ≠ "unknown") := by
  unfold classify_email at h
  exact classifyChain_cases _ _ _ _ h

/-- The result component of `classify_with_threshold` is
`classify_email`'s result. -/
theorem classify_with_threshold_fst (subject sender body : String) :
    (classify_with_threshold subject sender body).1 =
      classify_email subject sender body := by
  unfold classify_with_threshold
  cases classify_email subject sender body with
  | none => rfl
  | some r => by_cases h : r.confidence < CONFIDENCE_THRESHOLD <;> simp [h]

/-! ## C6 — smart truncation -/

/-- The truncation marker has 19 characters. -/
theorem truncMarker_length : truncMarker.data.length = 19 := by decide

/-- A body longer than 2000 characters truncates to exactly 2019
characters: 1500 + the 19-character marker + 500. -/
theorem _smart_truncate_long_length (body : String)
    (h : 2000 < body.length) : (_smart_truncate body).length = 2019 := by
  have h2 : ¬(body.length ≤ 2000) := by omega
  have hd : 2000 < body.data.length := h
  simp only [_smart_truncate, h2, if_false]
  show (body.data.take 1500 ++ truncMarker.data ++
    body.data.drop (body.data.length - 500)).length = 2019
  rw [List.length_append, List.length_append, List.length_take,
    List.length_drop, truncMarker_length]
  omega

/-- C6 (amended): a body of at most 2000 characters passes through
`_smart_truncate` unchanged; a longer body yields the first 1500
characters, the marker and the last 500 characters — a result of
exactly 2019 characters, not at most 2000.  `_smart_context` of the
pipeline computes the same function. -/
theorem C6_smart_truncate_spec (body : String) :
    (body.length ≤ 2000 → _smart_truncate body = body) ∧
    (2000 < body.length →
      _smart_truncate body = String.mk (body.data.take 1500 ++
        truncMarker.data ++ body.data.drop (body.data.length - 500)) ∧
      (_smart_truncate body).length = 2019) ∧
    _smart_context body = _smart_truncate body := by
  have hlen : body.length = body.data.length := rfl
  refine ⟨fun h => by simp [_smart_truncate, h], fun h => ⟨?_, ?_⟩, ?_⟩
  · have h2 : ¬(body.length ≤ 2000) := by omega
    simp [_smart_truncate, h2]
  · exact _smart_truncate_long_length body h
  · unfold _smart_context _smart_truncate
    rfl

/-- C6 counterexample: a 2001-character body truncates to 2019
characters, which exceeds the claimed bound of 2000. -/
theorem C6_counterexample :
    2000 < (String.mk (List.replicate 2001 'a')).length ∧
    (_smart_truncate (String.mk (List.replicate 2001 'a'))).length = 2019 ∧
    ¬((_smart_truncate (String.mk (List.replicate 2001 'a'))).length ≤ 2000) := by
  have hlen : (String.mk (List.replicate 2001 'a')).length = 2001 := by
    show (List.replicate 2001 'a').length = 2001
    simp
  have ht := _smart_truncate_long_length (String.mk (List.replicate 2001 'a'))
    (by omega)
  exact ⟨by omega, ht, by omega⟩

/-! ## C5 — rule-classifier threshold contract -/

/-- C5: `classify_with_threshold` reports that the LLM is needed exactly
when the rule classifier returned nothing or its confidence is strictly
below the 0.7 threshold; every returned result with a category other
than `unknown` has confidence between 0.7 and 1.0; and the only
`unknown` result is the DoorDash catchall `needs_review` with
confidence 0.5. -/
theorem C5_classify_with_threshold_spec (subject sender body : String) :
    ((classify_with_threshold subject sender body).2 =
      match (classify_with_threshold subject sender body).1 with
      | none => true
      | some c => decide (c.confidence < CONFIDENCE_THRESHOLD)) ∧
    (∀ c, (classify_with_threshold subject sender body).1 = some c →
      (c.category ≠ "unknown" →
        (0.7 : ℚ) ≤ c.confidence ∧ c.confidence ≤ 1) ∧
      (c.category = "unknown" →
        c.sub_category = "needs_review" ∧ c.confidence = 0.5)) := by
  constructor
  · unfold classify_with_threshold
    cases classify_email subject sender body with
    | none => rfl
    | some r => by_cases h : r.confidence < CONFIDENCE_THRESHOLD <;> simp [h]
  · intro c hc
    rw [classify_with_threshold_fst] at hc
    rcases classify_email_cases subject sender body c hc with h1 | h1
    · exact ⟨fun hne => absurd h1.1 hne, fun _ => ⟨h1.2.1, h1.2.2⟩⟩
    · exact ⟨fun _ => ⟨h1.1, h1.2.1⟩, fun hu => absurd hu h1.2.2⟩

/-! ## C1 — the scanner's write condition -/

/-- C1 (amended): a scanner-driven stage write occurs exactly when the
newly detected stage's priority rank is strictly greater than the
current stage's rank.  There is no reactivation exception in
`scan_single_account`: DEACTIVATED has the highest rank, so a
DEACTIVATED inbox is never written, reactivation evidence or not. -/
theorem C1_scan_write_iff_rank_increase (old_stage : Stage)
    (messages : List Msg) (getBody : Msg → Option String) :
    scan_stage_changed old_stage messages getBody =
      decide (STAGE_PRIORITY old_stage <
        STAGE_PRIORITY (scan_new_stage messages getBody).1) := by
  unfold scan_stage_changed
  by_cases h : STAGE_PRIORITY old_stage <
      STAGE_PRIORITY (scan_new_stage messages getBody).1
  · have hne := STAGE_PRIORITY_lt_ne _ _ h
    simp [h, hne]
  · simp [h]

set_option maxHeartbeats 2000000 in
/-- C1 counterexample: an inbox in stage DEACTIVATED whose only message
has the reactivation subject "Welcome back" is detected as ACTIVE with
reactivation evidence, yet the scanner performs no stage write — the
claimed DEACTIVATED-to-ACTIVE write does not happen. -/
theorem C1_counterexample :
    scan_stage_changed Stage.DEACTIVATED
      [⟨"Welcome back", "noreply@doordash.com", some 5⟩]
      (fun _ => none) = false ∧
    (scan_new_stage [⟨"Welcome back", "noreply@doordash.com", some 5⟩]
      (fun _ => none)).1 = Stage.ACTIVE ∧
    reactivation_evidence
      [⟨"Welcome back", "noreply@doordash.com", some 5⟩] = true := by
  refine ⟨?_, ?_, ?_⟩ <;> decide

/-! ## C10 — the header pass never yields BGC_CONSIDER -/

/-- The detector loop never produces BGC_CONSIDER from a state that is
not BGC_CONSIDER. -/
theorem detectLoop_ne_consider (l : List Msg) :
    ∀ (stage : Stage) ts td nbc r conf, stage ≠ Stage.BGC_CONSIDER →
    (detectLoop l stage ts td nbc r conf).1 ≠ Stage.BGC_CONSIDER := by
  induction l with
  | nil => intro stage ts td nbc r conf h; simpa [detectLoop] using h
  | cons m rest ih =>
    intro stage ts td nbc r conf h
    cases hb1 : _any_match _REACTIVATION_PATTERNS (_lower m.subject) with
    | true =>
      simp only [detectLoop, hb1, reduceIte]
      split
      · exact ih _ _ _ _ _ _ (by decide)
      · exact ih _ _ _ _ _ _ h
    | false =>
    cases hb2 : _any_match _DEACTIVATION_PATTERNS (_lower m.subject) with
    | true =>
      simp only [detectLoop, hb1, hb2, Bool.false_eq_true, reduceIte]
      split
      · simp
      · exact ih _ _ _ _ _ _ h
    | false =>
    cases hb3 : _is_active_signal (_lower m.subject) (_lower m.sender) with
    | true =>
      simp only [detectLoop, hb1, hb2, hb3, Bool.false_eq_true, reduceIte]
      split
      · exact ih _ _ _ _ _ _ (by decide)
      · exact ih _ _ _ _ _ _ h
    | false =>
    cases hb4 : reSearch _BGC_COMPLETE_PATTERN (_lower m.subject) with
    | true =>
      simp only [detectLoop, hb1, hb2, hb3, hb4, Bool.false_eq_true, reduceIte]
      split
      · exact ih _ _ _ _ _ _ (by decide)
      · exact ih _ _ _ _ _ _ h
    | false =>
    cases hb5 : _is_bgc_pending_signal (_lower m.subject) (_lower m.sender) with
    | true =>
      simp only [detectLoop, hb1, hb2, hb3, hb4, hb5, Bool.false_eq_true,
        reduceIte]
      split
      · exact ih _ _ _ _ _ _ (by decide)
      · exact ih _ _ _ _ _ _ h
    | false =>
    cases hb6 : _is_identity_verified_signal (_lower m.subject)
        (_lower m.sender) with
    | true =>
      simp only [detectLoop, hb1, hb2, hb3, hb4, hb5, hb6, Bool.false_eq_true,
        reduceIte]
      split
      · exact ih _ _ _ _ _ _ (by decide)
      · exact ih _ _ _ _ _ _ h
    | false =>
      simp only [detectLoop, hb1, hb2, hb3, hb4, hb5, hb6, Bool.false_eq_true,
        reduceIte]
      exact ih _ _ _ _ _ _ h

/-- C10: the header-only detector pass returns one of the six stages
REGISTERED, IDENTITY_VERIFIED, BGC_PENDING, BGC_CLEAR, ACTIVE,
DEACTIVATED — never BGC_CONSIDER; BGC_CONSIDER arises only from
`check_bgc_body` on a fetched body, which decides between BGC_CONSIDER
and BGC_CLEAR. -/
theorem C10_header_pass_no_consider (messages : List Msg) (body_text : String) :
    (detect_stage_from_messages messages).1 ∈
      [Stage.REGISTERED, Stage.IDENTITY_VERIFIED, Stage.BGC_PENDING,
       Stage.BGC_CLEAR, Stage.ACTIVE, Stage.DEACTIVATED] ∧
    (check_bgc_body body_text = Stage.BGC_CONSIDER ∨
     check_bgc_body body_text = Stage.BGC_CLEAR) := by
  constructor
  · have h := detectLoop_ne_consider (_sort_messages_by_date messages)
      Stage.REGISTERED none none [] false "low" (by decide)
    unfold detect_stage_from_messages
    revert h
    generalize (detectLoop (_sort_messages_by_date messages)
      Stage.REGISTERED none none [] false "low").1 = s
    intro h
    cases s <;> simp_all
  · unfold check_bgc_body
    split <;> simp

end Dasher

namespace Dasher

/-! ## C4 — deactivation wins absent reactivation -/

/-- Inserting into the date-sorted list is a permutation of consing. -/
theorem insertByDateDesc_perm (m : Msg) (l : List Msg) :
    (insertByDateDesc m l).Perm (m :: l) := by
  induction l with
  | nil => exact List.Perm.refl _
  | cons x xs ih =>
    unfold insertByDateDesc
    split
    · exact ((ih.cons x).trans (List.Perm.swap m x xs))
    · exact List.Perm.refl _

/-- The date sort permutes the messages. -/
theorem sort_messages_perm (l : List Msg) :
    (_sort_messages_by_date l).Perm l := by
  induction l with
  | nil => exact List.Perm.refl _
  | cons m ms ih =>
    unfold _sort_messages_by_date
    exact (insertByDateDesc_perm m (_sort_messages_by_date ms)).trans (ih.cons m)

/-- If no message matches a reactivation pattern and some message
matches a deactivation pattern, the loop (entered with the
`reactivated` flag clear) short-circuits to DEACTIVATED. -/
theorem detectLoop_deactivated (l : List Msg) :
    ∀ (stage : Stage) ts td nbc conf,
    (∀ m ∈ l, _any_match _REACTIVATION_PATTERNS (_lower m.subject) = false) →
    (∃ m ∈ l, _any_match _DEACTIVATION_PATTERNS (_lower m.subject) = true) →
    (detectLoop l stage ts td nbc false conf).1 = Stage.DEACTIVATED := by
  induction l with
  | nil =>
    rintro stage ts td nbc conf _ ⟨m, hm, _⟩
    exact absurd hm (List.not_mem_nil m)
  | cons m rest ih =>
    rintro stage ts td nbc conf hall hex
    have hb1 : _any_match _REACTIVATION_PATTERNS (_lower m.subject) = false :=
      hall m (List.mem_cons_self m rest)
    have hallr : ∀ x ∈ rest,
        _any_match _REACTIVATION_PATTERNS (_lower x.subject) = false :=
      fun x hx => hall x (List.mem_cons_of_mem m hx)
    cases hb2 : _any_match _DEACTIVATION_PATTERNS (_lower m.subject) with
    | true =>
      simp only [detectLoop, hb1, hb2, Bool.false_eq_true, reduceIte,
        Bool.not_false]
    | false =>
      have hexr : ∃ x ∈ rest,
          _any_match _DEACTIVATION_PATTERNS (_lower x.subject) = true := by
        rcases hex with ⟨x, hx, hdx⟩
        rcases List.mem_cons.mp hx with rfl | hx2
        · exact absurd hdx (by simp [hb2])
        · exact ⟨x, hx2, hdx⟩
      cases hb3 : _is_active_signal (_lower m.subject) (_lower m.sender) with
      | true =>
        simp only [detectLoop, hb1, hb2, hb3, Bool.false_eq_true, reduceIte]
        split
        · exact ih _ _ _ _ _ hallr hexr
        · exact ih _ _ _ _ _ hallr hexr
      | false =>
      cases hb4 : reSearch _BGC_COMPLETE_PATTERN (_lower m.subject) with
      | true =>
        simp only [detectLoop, hb1, hb2, hb3, hb4, Bool.false_eq_true,
          reduceIte]
        split
        · exact ih _ _ _ _ _ hallr hexr
        · exact ih _ _ _ _ _ hallr hexr
      | false =>
      cases hb5 : _is_bgc_pending_signal (_lower m.subject)
          (_lower m.sender) with
      | true =>
        simp only [detectLoop, hb1, hb2, hb3, hb4, hb5, Bool.false_eq_true,
          reduceIte]
        split
        · exact ih _ _ _ _ _ hallr hexr
        · exact ih _ _ _ _ _ hallr hexr
      | false =>
      cases hb6 : _is_identity_verified_signal (_lower m.subject)
          (_lower m.sender) with
      | true =>
        simp only [detectLoop, hb1, hb2, hb3, hb4, hb5, hb6,
          Bool.false_eq_true, reduceIte]
        split
        · exact ih _ _ _ _ _ hallr hexr
        · exact ih _ _ _ _ _ hallr hexr
      | false =>
        simp only [detectLoop, hb1, hb2, hb3, hb4, hb5, hb6,
          Bool.false_eq_true, reduceIte]
        exact ih _ _ _ _ _ hallr hexr

/-- C4: whenever at least one message's subject matches a deactivation
pattern and no message's subject matches a reactivation pattern, the
detector returns DEACTIVATED (the loop short-circuits at the first
deactivation match in the sorted order). -/
theorem C4_deactivation_wins (messages : List Msg)
    (hno : ∀ m ∈ messages,
      _any_match _REACTIVATION_PATTERNS (_lower m.subject) = false)
    (hyes : ∃ m ∈ messages,
      _any_match _DEACTIVATION_PATTERNS (_lower m.subject) = true) :
    (detect_stage_from_messages messages).1 = Stage.DEACTIVATED := by
  unfold detect_stage_from_messages
  apply detectLoop_deactivated
  · intro m hm
    exact hno m ((sort_messages_perm messages).mem_iff.mp hm)
  · rcases hyes with ⟨m, hm, hd⟩
    exact ⟨m, (sort_messages_perm messages).mem_iff.mpr hm, hd⟩

set_option maxHeartbeats 2000000 in
/-- C4 witness: the spec's "deactivation wins" scenario — a weekly-pay
message and a newer deactivation message yield stage DEACTIVATED. -/
theorem C4_witness :
    (detect_stage_from_messages
      [⟨"Your weekly pay is ready", "noreply@doordash.com", some 1⟩,
       ⟨"Your Dasher Account Has Been Deactivated", "no-reply@doordash.com",
        some 2⟩]).1 = Stage.DEACTIVATED :=
  C4_deactivation_wins _ (by decide) (by decide)

end Dasher

namespace Dasher

/-! ## C9 — bounded, non-blocking broadcast -/

/-- With distinct subscriber ids, the buffer attached to an id is
unique. -/
theorem nodup_fst_buf_eq (qs : List (Nat × List SSEEvent)) (i : Nat)
    (b c : List SSEEvent) (hnd : (qs.map Prod.fst).Nodup)
    (hb : (i, b) ∈ qs) (hc : (i, c) ∈ qs) : b = c := by
  induction qs with
  | nil => exact absurd hb (List.not_mem_nil _)
  | cons q rest ih =>
    rw [List.map_cons, List.nodup_cons] at hnd
    rcases List.mem_cons.mp hb with rfl | hb2
    · rcases List.mem_cons.mp hc with hqc | hc2
      · exact (congrArg Prod.snd hqc.symm)
      · exact absurd (List.mem_map_of_mem Prod.fst hc2) (by simpa using hnd.1)
    · rcases List.mem_cons.mp hc with rfl | hc2
      · exact absurd (List.mem_map_of_mem Prod.fst hb2) (by simpa using hnd.1)
      · exact ih hnd.2 hb2 hc2

/-- The try/collect/discard loop body delivers FIFO to a queue with
free capacity and drops a full queue from the set, for any event. -/
theorem broadcastStep_spec (e : SSEEvent)
    (queues : List (Nat × List SSEEvent)) (i : Nat) (buf : List SSEEvent)
    (hnd : (queues.map Prod.fst).Nodup) (hmem : (i, buf) ∈ queues) :
    (buf.length < 50 →
      (i, buf ++ [e]) ∈ broadcastStep e queues) ∧
    (50 ≤ buf.length →
      ∀ buf2, (i, buf2) ∉ broadcastStep e queues) := by
  have helem : ∀ (l : List Nat) (j : Nat), j ∈ l → l.contains j = true :=
    fun l j hj => List.elem_eq_true_of_mem hj
  constructor
  · intro hlt
    unfold broadcastStep
    rw [List.mem_filter]
    refine ⟨List.mem_map.mpr ⟨((i, buf ++ [e]), false),
      List.mem_map.mpr ⟨(i, buf), hmem, by simp [put_nowait, hlt]⟩, rfl⟩, ?_⟩
    have hni : i ∉ ((queues.map (fun q =>
        match put_nowait 50 q.2 e with
        | some b => ((q.1, b), false)
        | none => (q, true))).filter (fun a => a.2)).map (fun a => a.1.1) := by
      rintro hmemd
      rcases List.mem_map.mp hmemd with ⟨a, hafil, haeq⟩
      rcases List.mem_filter.mp hafil with ⟨hamem, hflag⟩
      rcases List.mem_map.mp hamem with ⟨⟨k, c⟩, hkc, hfa⟩
      by_cases hclen : c.length < 50
      · rw [show put_nowait 50 c e =
            some (c ++ [e]) by simp [put_nowait, hclen]]
          at hfa
        subst hfa
        exact Bool.noConfusion hflag
      · rw [show put_nowait 50 c e = none by
            simp [put_nowait, hclen]] at hfa
        subst hfa
        simp only at haeq
        subst haeq
        have := nodup_fst_buf_eq queues _ _ _ hnd hmem hkc
        subst this
        exact hclen hlt
    cases hc : (((queues.map (fun q =>
        match put_nowait 50 q.2 e with
        | some b => ((q.1, b), false)
        | none => (q, true))).filter (fun a => a.2)).map
          (fun a => a.1.1)).contains i with
    | false => simpa using hc
    | true => exact absurd (List.mem_of_elem_eq_true hc) hni
  · intro hge buf2 hin
    unfold broadcastStep at hin
    rcases List.mem_filter.mp hin with ⟨hmm2, hlive⟩
    have hfull : put_nowait 50 buf e = none := by
      unfold put_nowait
      rw [if_neg]
      omega
    have h1 : (((i, buf) : Nat × List SSEEvent), true) ∈
        queues.map (fun q =>
          match put_nowait 50 q.2 e with
          | some b => ((q.1, b), false)
          | none => (q, true)) :=
      List.mem_map.mpr ⟨(i, buf), hmem, by rw [hfull]⟩
    have h2 : (((i, buf) : Nat × List SSEEvent), true) ∈
        (queues.map (fun q =>
          match put_nowait 50 q.2 e with
          | some b => ((q.1, b), false)
          | none => (q, true))).filter (fun a => a.2) :=
      List.mem_filter.mpr ⟨h1, rfl⟩
    have h3 : i ∈ ((queues.map (fun q =>
        match put_nowait 50 q.2 e with
        | some b => ((q.1, b), false)
        | none => (q, true))).filter (fun a => a.2)).map (fun a => a.1.1) :=
      List.mem_map.mpr ⟨((i, buf), true), h2, rfl⟩
    rw [helem _ _ h3] at hlive
    exact Bool.noConfusion hlive

/-- `broadcast_admin` is the shared loop body applied to the admin
set. -/
theorem broadcast_admin_eq_step (event_type data now : String)
    (queues : List (Nat × List SSEEvent)) :
    broadcast_admin event_type data now queues =
      broadcastStep ⟨event_type, data, now⟩ queues := rfl

/-- C9: publishing an event — admin or portal broadcast — is a total
function of the registries (the publisher neither blocks nor raises).
On the admin broadcast, every subscriber whose queue has free capacity
receives the event appended at the tail of its queue (FIFO), and every
subscriber whose queue is at capacity receives nothing and is removed
from the subscriber set; the portal broadcast does exactly the same to
the queue set registered for the event's email. -/
theorem C9_broadcast_spec (event_type data now email : String)
    (queues : List (Nat × List SSEEvent)) (i : Nat) (buf : List SSEEvent)
    (portal : List (String × List (Nat × List SSEEvent)))
    (qs : List (Nat × List SSEEvent))
    (hnd : (queues.map Prod.fst).Nodup) (hmem : (i, buf) ∈ queues)
    (hndq : (qs.map Prod.fst).Nodup) (hentry : (email, qs) ∈ portal)
    (hmemq : (i, buf) ∈ qs) :
    ((buf.length < 50 →
        (i, buf ++ [⟨event_type, data, now⟩]) ∈
          broadcast_admin event_type data now queues) ∧
      (50 ≤ buf.length →
        ∀ buf2, (i, buf2) ∉ broadcast_admin event_type data now queues)) ∧
    (∃ qs2, (email, qs2) ∈ broadcast_portal email event_type data now portal ∧
      (buf.length < 50 → (i, buf ++ [⟨event_type, data, now⟩]) ∈ qs2) ∧
      (50 ≤ buf.length → ∀ buf2, (i, buf2) ∉ qs2)) := by
  have hadmin := broadcastStep_spec ⟨event_type, data, now⟩ queues i buf hnd hmem
  have hportal := broadcastStep_spec ⟨event_type, data, now⟩ qs i buf hndq hmemq
  refine ⟨?_, broadcastStep ⟨event_type, data, now⟩ qs, ?_, hportal.1, hportal.2⟩
  · rw [broadcast_admin_eq_step]
    exact hadmin
  · have h1 := List.mem_map_of_mem
      (fun entry : String × List (Nat × List SSEEvent) =>
        if entry.1 = email then
          (entry.1, broadcastStep ⟨event_type, data, now⟩ entry.2)
        else entry) hentry
    simpa [broadcast_portal] using h1

set_option maxHeartbeats 2000000 in
/-- C9 witness: one empty and one full admin queue, and a portal
registry holding the same subscriber set under one email — the
broadcast removes the full subscriber without delivering, on both
paths. -/
theorem C9_witness :
    (((List.replicate 50 (⟨"alert", "x", "t0"⟩ : SSEEvent)).length < 50 →
      (1, List.replicate 50 (⟨"alert", "x", "t0"⟩ : SSEEvent) ++
        [⟨"stage_change", "d", "t1"⟩]) ∈
        broadcast_admin "stage_change" "d" "t1"
          [(0, []), (1, List.replicate 50 ⟨"alert", "x", "t0"⟩)]) ∧
    (50 ≤ (List.replicate 50 (⟨"alert", "x", "t0"⟩ : SSEEvent)).length →
      ∀ buf2, (1, buf2) ∉ broadcast_admin "stage_change" "d" "t1"
        [(0, []), (1, List.replicate 50 ⟨"alert", "x", "t0"⟩)])) ∧
    (∃ qs2, ("dasher@example.com", qs2) ∈
        broadcast_portal "dasher@example.com" "stage_change" "d" "t1"
          [("dasher@example.com",
            [(0, []), (1, List.replicate 50 ⟨"alert", "x", "t0"⟩)])] ∧
      ((List.replicate 50 (⟨"alert", "x", "t0"⟩ : SSEEvent)).length < 50 →
        (1, List.replicate 50 (⟨"alert", "x", "t0"⟩ : SSEEvent) ++
          [⟨"stage_change", "d", "t1"⟩]) ∈ qs2) ∧
      (50 ≤ (List.replicate 50 (⟨"alert", "x", "t0"⟩ : SSEEvent)).length →
        ∀ buf2, (1, buf2) ∉ qs2)) :=
  C9_broadcast_spec "stage_change" "d" "t1" "dasher@example.com"
    [(0, []), (1, List.replicate 50 ⟨"alert", "x", "t0"⟩)] 1
    (List.replicate 50 ⟨"alert", "x", "t0"⟩)
    [("dasher@example.com",
      [(0, []), (1, List.replicate 50 ⟨"alert", "x", "t0"⟩)])]
    [(0, []), (1, List.replicate 50 ⟨"alert", "x", "t0"⟩)]
    (by decide) (by decide) (by decide) (by decide) (by decide)

end Dasher

namespace Dasher

/-! ## C2 — template-cache dedup short-circuit -/

/-- Appending a suffix makes `endswith` true. -/
theorem pyEndsWith_append (s suffix : String) :
    pyEndsWith (s ++ suffix) suffix = true := by
  unfold pyEndsWith
  rw [List.isSuffixOf_iff_suffix]
  exact ⟨s.data, by simp⟩

/-- C2 (amended): in the scanner's batch classifier, a template-cache
hit for the message's fingerprint short-circuits the worker — the rule
classifier is never consulted — and the cached classification is
persisted with its source carrying the `_dedup` suffix; the cache
itself is left unchanged. -/
theorem C2_scan_cache_hit_dedup (subject sender : String)
    (tc : TemplateCache) (cached : TemplateBlob)
    (hget : tc.get (make_fingerprint subject sender) = some cached) :
    ∃ row : TemplateBlob,
      _classify_recent_emails_step subject sender false tc = (some row, tc) ∧
      pyEndsWith row.analysis_source "_dedup" = true ∧
      row.category = cached.category ∧
      row.sub_category = cached.sub_category ∧
      row.confidence = cached.confidence ∧
      row.summary = cached.summary ∧
      row.urgency = cached.urgency ∧
      row.action_required = cached.action_required := by
  refine ⟨{ cached with analysis_source :=
      (if pyEndsWith cached.analysis_source "_dedup" then
        cached.analysis_source
      else cached.analysis_source ++ "_dedup") }, ?_, ?_, rfl, rfl, rfl, rfl,
    rfl, rfl⟩
  · unfold _classify_recent_emails_step
    rw [if_neg (by simp)]
    simp only [hget]
  · by_cases hend : pyEndsWith cached.analysis_source "_dedup" = true
    · simpa [hend] using hend
    · rw [if_neg (by simpa using hend)]
      exact pyEndsWith_append _ _

/-- A cached blob for the C2 witness. -/
def c2Blob : TemplateBlob :=
  ⟨"earnings", "weekly_pay", 0.95, "rules", "Weekly pay statement", "low",
   false⟩

/-- A one-entry template cache holding `c2Blob` for the fingerprint of
subject "a", sender "b". -/
def c2Cache : TemplateCache := ⟨[(make_fingerprint "a" "b", c2Blob)]⟩

/-- C2 witness: a concrete cache hit persists the cached classification
with source `rules_dedup` and skips the classifier. -/
theorem C2_witness :
    ∃ row : TemplateBlob,
      _classify_recent_emails_step "a" "b" false c2Cache = (some row, c2Cache) ∧
      pyEndsWith row.analysis_source "_dedup" = true ∧
      row.category = c2Blob.category ∧
      row.sub_category = c2Blob.sub_category ∧
      row.confidence = c2Blob.confidence ∧
      row.summary = c2Blob.summary ∧
      row.urgency = c2Blob.urgency ∧
      row.action_required = c2Blob.action_required :=
  C2_scan_cache_hit_dedup "a" "b" c2Cache c2Blob
    (by simp [TemplateCache.get, c2Cache, List.lookup])

/-- The cache entry of the C2 counterexample: a distinctive cached
classification for the fingerprint of subject "survey", sender "x". -/
def c2cexBlob : TemplateBlob :=
  ⟨"equipment", "equipment", 0.85, "rules", "Equipment or kit notification",
   "low", false⟩

def c2cexCache : TemplateCache := ⟨[(make_fingerprint "survey" "x", c2cexBlob)]⟩

/-- The row the pipeline actually produces for ("survey", "x"). -/
def c2cexRow : AnalysisData :=
  ⟨"operational", "survey", _score_confidence 0.7 "regex", "rules",
   "Experience feedback request", "info", false, none, none⟩

/-- The rule result for subject "survey". -/
def c2cexRes : ClassificationResult :=
  ⟨"operational", "survey", _score_confidence 0.7 "regex",
   "Experience feedback request", "info", false⟩

/-- The survey rule's confidence does not fall below the threshold. -/
theorem c2cexRes_not_below :
    ¬(c2cexRes.confidence < CONFIDENCE_THRESHOLD) := by
  unfold c2cexRes CONFIDENCE_THRESHOLD
  simp only [_score_confidence, String.reduceEq, reduceIte]
  norm_num [min_def, max_def]

/-- `classify_with_threshold` on the counterexample input. -/
theorem c2cex_cwt :
    classify_with_threshold "survey" "x" "" = (some c2cexRes, false) := by
  unfold classify_with_threshold
  rw [show classify_email "survey" "x" "" = some c2cexRes from rfl]
  show (if c2cexRes.confidence < CONFIDENCE_THRESHOLD then (some c2cexRes, true)
    else (some c2cexRes, false)) = (some c2cexRes, false)
  rw [if_neg c2cexRes_not_below]

/-- C2 counterexample: the claim fails on the per-message pipeline
`analyze_email` — the template cache holds an entry for the message's
fingerprint, yet the rule classifier still runs (the produced category
comes from the rules, not the cache) and the persisted source is plain
`rules`, not `_dedup`-suffixed. -/
theorem C2_counterexample :
    c2cexCache.get (make_fingerprint "survey" "x") = some c2cexBlob ∧
    analyze_email "survey" "x" "" c2cexCache none none =
      AnalyzeOut.produced c2cexRow c2cexCache ∧
    c2cexRow.analysis_source = "rules" ∧
    c2cexRow.category = "operational" ∧
    c2cexBlob.category = "equipment" ∧
    pyEndsWith c2cexRow.analysis_source "_dedup" = false := by
  refine ⟨by simp [TemplateCache.get, c2cexCache, List.lookup], ?_, rfl, rfl,
    rfl, by decide⟩
  show analyzeEmailCore "survey" "x" "" c2cexCache none =
    AnalyzeOut.produced c2cexRow c2cexCache
  unfold analyzeEmailCore
  simp only [show _smart_context "" = "" from rfl, c2cex_cwt]
  try rfl

/-! ## C3 — pipeline confidence bounds -/

/-- C3 (amended): every row produced by the pipeline has confidence in
the unit interval, and a pipeline-produced row with source `manual`
(the LLM-failure fallback) has confidence 0, not 1. -/
theorem C3_pipeline_confidence (subject sender body : String)
    (tc : TemplateCache) (ai : Option RawAI) (d : AnalysisData)
    (tc2 : TemplateCache)
    (h : analyze_email subject sender body tc none ai =
      AnalyzeOut.produced d tc2) :
    (0 ≤ d.confidence ∧ d.confidence ≤ 1) ∧
    (d.analysis_source = "manual" → d.confidence = 0) := by
  have h2 : analyzeEmailCore subject sender body tc ai =
      AnalyzeOut.produced d tc2 := h
  clear h
  unfold analyzeEmailCore at h2
  rcases hce : classify_with_threshold subject sender (_smart_context body)
    with ⟨r, na⟩
  simp only [hce] at h2
  have hrule : ∀ res, r = some res →
      (0 ≤ res.confidence ∧ res.confidence ≤ 1) := by
    intro res hr
    have : classify_email subject sender (_smart_context body) = some res := by
      rw [← classify_with_threshold_fst, hce, hr]
    rcases classify_email_cases _ _ _ _ this with h1 | h1
    · constructor <;> rw [h1.2.2] <;> norm_num
    · exact ⟨le_trans (by norm_num) h1.1, h1.2.1⟩
  cases na with
  | false =>
    simp only [Bool.false_eq_true, reduceIte] at h2
    cases r with
    | none =>
      injection h2 with ha hb
      subst ha
      exact ⟨⟨le_refl 0, by norm_num⟩, fun _ => rfl⟩
    | some res =>
      injection h2 with ha hb
      subst ha
      exact ⟨hrule res rfl, fun hs => absurd hs (by simp)⟩
  | true =>
    cases ai with
    | none =>
      simp only [reduceIte] at h2
      cases r with
      | none =>
        injection h2 with ha hb
        subst ha
        exact ⟨⟨le_refl 0, by norm_num⟩, fun _ => rfl⟩
      | some res =>
        injection h2 with ha hb
        subst ha
        exact ⟨hrule res rfl, fun hs => absurd hs (by simp)⟩
    | some raw =>
      simp only [reduceIte] at h2
      injection h2 with ha hb
      subst ha
      refine ⟨⟨le_max_left 0 _, ?_⟩, fun hs => absurd hs (by simp)⟩
      exact max_le (by norm_num) (min_le_left 1 _)

/-- The row `analyze_email` produces for an unclassifiable message when
the LLM also fails: the `manual` fallback. -/
def c3Row : AnalysisData :=
  ⟨"unknown", "unclassified", 0, "manual", "Could not classify: x", "low",
   false, none, none⟩

/-- C3 witness: the bounds hold at a concrete pipeline run — the
`manual` fallback row of an unclassifiable message. -/
theorem C3_witness :
    (0 ≤ c3Row.confidence ∧ c3Row.confidence ≤ 1) ∧
    (c3Row.analysis_source = "manual" → c3Row.confidence = 0) :=
  C3_pipeline_confidence "x" "y" "" ⟨[]⟩ none c3Row ⟨[]⟩ rfl

/-- C3 counterexample: the pipeline's `manual` fallback row has
confidence 0, refuting "source `manual` implies confidence exactly
1.0". -/
theorem C3_counterexample :
    analyze_email "x" "y" "" ⟨[]⟩ none none =
      AnalyzeOut.produced c3Row ⟨[]⟩ ∧
    c3Row.analysis_source = "manual" ∧
    c3Row.confidence = 0 ∧ (0 : ℚ) ≠ 1 := by
  refine ⟨rfl, rfl, rfl, by norm_num⟩

/-! ## C7: idempotence of `normalize_subject`

The replacement tokens of the substitution chain (`DATE`, `YEAR`,
`GREETING`, `NUM`, `$X`) are upper-case, but a second application of
`normalize_subject` lower-cases its input first, so a subject whose
normalisation inserted a token is not a fixed point.  When the
substitution chain makes no replacement — `normalize_subject s` is just
the stripped, lower-cased subject — idempotence does hold; the lemmas
below establish that the strip/lower prefix is itself idempotent. -/

/-- `Char.ofNat` at a scalar value below the surrogate range. -/
theorem char_toNat_ofNat (n : Nat) (h : n < 55296) : (Char.ofNat n).toNat = n := by
  simp [Char.ofNat, Nat.isValidChar, h, Char.ofNatAux, Char.toNat, UInt32.toNat,
    BitVec.toNat_ofNatLt]

/-- Lowering an `A`–`Z` letter adds 32 to its code point. -/
theorem toLower_of_upper (c : Char) (h : 65 ≤ c.toNat ∧ c.toNat ≤ 90) :
    (Char.toLower c).toNat = c.toNat + 32 := by
  have hc : Char.toLower c = Char.ofNat (c.toNat + 32) := by
    simp only [Char.toLower]
    rw [if_pos]
    exact ⟨h.1, h.2⟩
  rw [hc]
  exact char_toNat_ofNat _ (by omega)

/-- `Char.toLower` fixes anything outside `A`–`Z`. -/
theorem toLower_of_not_upper (c : Char) (h : ¬(65 ≤ c.toNat ∧ c.toNat ≤ 90)) :
    Char.toLower c = c := by
  simp only [Char.toLower]
  rw [if_neg]
  exact fun hc => h ⟨hc.1, hc.2⟩

/-- Lower-casing never creates or destroys whitespace. -/
theorem isSpc_toLower (c : Char) : isSpc (Char.toLower c) = isSpc c := by
  by_cases h : 65 ≤ c.toNat ∧ c.toNat ≤ 90
  · have h1 := toLower_of_upper c h
    have hl : isSpc (Char.toLower c) = false := by
      simp only [isSpc, h1, Bool.or_eq_false_iff, beq_eq_false_iff_ne, ne_eq]
      omega
    have hr : isSpc c = false := by
      simp only [isSpc, Bool.or_eq_false_iff, beq_eq_false_iff_ne, ne_eq]
      omega
    rw [hl, hr]
  · rw [toLower_of_not_upper c h]

/-- `Char.toLower` is idempotent. -/
theorem toLower_idem (c : Char) : Char.toLower (Char.toLower c) = Char.toLower c := by
  by_cases h : 65 ≤ c.toNat ∧ c.toNat ≤ 90
  · have h1 := toLower_of_upper c h
    apply toLower_of_not_upper
    rw [h1]
    omega
  · rw [toLower_of_not_upper c h]
    exact toLower_of_not_upper c h

/-- `str.lower()` is idempotent. -/
theorem pyLowerList_idem (l : List Char) : pyLowerList (pyLowerList l) = pyLowerList l := by
  simp only [pyLowerList, List.map_map, Function.comp_def, toLower_idem]

/-- `dropWhile` is idempotent. -/
theorem dropWhile_idem (p : Char → Bool) (l : List Char) :
    (l.dropWhile p).dropWhile p = l.dropWhile p := by
  induction l with
  | nil => rfl
  | cons c cs ih =>
    cases h : p c
    · simp [List.dropWhile_cons, h]
    · simp [List.dropWhile_cons, h, ih]

/-- A nonempty `dropWhile` residue starts with a failing character. -/
theorem dropWhile_head_false (p : Char → Bool) (c : Char) (cs : List Char)
    (h : (c :: cs).dropWhile p = c :: cs) : p c = false := by
  cases hc : p c
  · rfl
  · exfalso
    rw [List.dropWhile_cons, if_pos hc] at h
    have hlen : (cs.dropWhile p).length ≤ cs.length := (List.dropWhile_suffix p).length_le
    rw [h] at hlen
    simp only [List.length_cons] at hlen
    omega

/-- `dropWhile` fixes a list whose head fails the predicate. -/
theorem dropWhile_eq_self_of_head (p : Char → Bool) (c : Char) (cs : List Char)
    (h : p c = false) : (c :: cs).dropWhile p = c :: cs := by
  simp [List.dropWhile_cons, h]

/-- Right-stripping a left-stripped list leaves it left-stripped. -/
theorem dropWhile_reverse_self (m : List Char) (hm : m.dropWhile isSpc = m) :
    ((m.reverse.dropWhile isSpc).reverse).dropWhile isSpc
      = (m.reverse.dropWhile isSpc).reverse := by
  have hpre : (m.reverse.dropWhile isSpc).reverse <+: m := by
    have h1 : m.reverse.dropWhile isSpc <:+ m.reverse := List.dropWhile_suffix isSpc
    have h2 := List.reverse_prefix.mpr h1
    rwa [List.reverse_reverse] at h2
  cases hc : (m.reverse.dropWhile isSpc).reverse with
  | nil => simp
  | cons c cs =>
    rw [hc] at hpre
    obtain ⟨t, ht⟩ := hpre
    rw [← ht] at hm
    simp only [List.cons_append] at hm
    exact dropWhile_eq_self_of_head isSpc c cs (dropWhile_head_false isSpc c (cs ++ t) hm)

/-- `str.strip()` is idempotent. -/
theorem pyStrip_idem (l : List Char) : pyStrip (pyStrip l) = pyStrip l := by
  unfold pyStrip
  rw [dropWhile_reverse_self (l.dropWhile isSpc) (dropWhile_idem isSpc l)]
  rw [List.reverse_reverse, dropWhile_idem]

/-- `strip` commutes with `lower`. -/
theorem pyStrip_pyLower_comm (l : List Char) :
    pyStrip (pyLowerList l) = pyLowerList (pyStrip l) := by
  simp only [pyStrip, pyLowerList, List.dropWhile_map, ← List.map_reverse, Function.comp_def,
    isSpc_toLower]

/-- The strip-then-lower prefix of `normalize_subject` is idempotent. -/
theorem lowerStrip_idem (s : String) :
    String.mk (pyLowerList (pyStrip (String.mk (pyLowerList (pyStrip s.data))).data)) =
      String.mk (pyLowerList (pyStrip s.data)) := by
  show String.mk (pyLowerList (pyStrip (pyLowerList (pyStrip s.data)))) = _
  rw [pyStrip_pyLower_comm, pyStrip_idem, pyLowerList_idem]

/-- C7: `normalize_subject` is idempotent at every subject whose normalisation
makes no replacement, i.e. whenever `normalize_subject s` is just the
stripped, lower-cased subject.  (Unconditional idempotence fails: the
replacement tokens are upper-case, see the counterexample.) -/
theorem C7_normalize_subject_idem (s : String)
    (h : normalize_subject s = String.mk (pyLowerList (pyStrip s.data))) :
    normalize_subject (normalize_subject s) = normalize_subject s := by
  rw [h]
  show normalizeSubsChain
      (String.mk (pyLowerList (pyStrip (String.mk (pyLowerList (pyStrip s.data))).data)))
      = String.mk (pyLowerList (pyStrip s.data))
  rw [lowerStrip_idem]
  exact h

/-- C7 witness: at `"ok"` the substitution chain makes no replacement and
normalisation is idempotent. -/
theorem C7_witness :
    normalize_subject "ok" = String.mk (pyLowerList (pyStrip "ok".data)) ∧
      normalize_subject (normalize_subject "ok") = normalize_subject "ok" :=
  ⟨by decide, C7_normalize_subject_idem "ok" (by decide)⟩

/-- C7 counterexample: `normalize_subject "2024" = "YEAR"` but a second pass
lower-cases the token to `"year"`, so normalisation is not idempotent. -/
theorem C7_counterexample :
    ¬(normalize_subject (normalize_subject "2024") = normalize_subject "2024") := by
  decide

/-! ## C8: the greeting rule of `normalize_subject` is dead code

`normalize_subject` lower-cases the subject before applying the
case-sensitive greeting pattern, which requires a capitalised
`Hi|Hello|Hey|Dear` and a capitalised name; on the lower-cased
subject the pattern can never match, so no `GREETING` token is ever
produced. -/

/-- C8: the spec example `"Hi Alice, your pay is ready"` is not rewritten to
contain `GREETING`; the greeting survives (lower-cased) because the
case-sensitive name pattern runs after lower-casing. -/
theorem C8_greeting_never_replaced :
    normalize_subject "Hi Alice, your pay is ready" = "hi alice, your pay is ready" ∧
      reSearch [[litCS "GREETING"]] (normalize_subject "Hi Alice, your pay is ready")
        = false := by
  decide

end Dasher
